import Mathlib

/-!
# Orbital — formal model of the simulation core

A shallow embedding of the Orbital simulation engine
(`assets/js/constants.js`, `utils.js`, `celestial-body.js`, `collision.js`,
`ejection.js`, `absorption.js`, `physics.js`, `game-state.js`,
`population.js`) in Lean 4, together with proofs about the claims of the
specification.

Modelling conventions:

* JS numbers are modelled as exact rationals `ℚ`.  The claims settled here
  do not depend on floating-point rounding; where the *non-finiteness* of a
  JS computation matters (division by zero producing `Infinity`/`NaN`) we
  use the dedicated extended-number type `JsNum` below.
* Transcendental library calls (`Math.sqrt`, `Math.cbrt`, `Math.atan2`,
  `Math.cos`, `Math.sin`, `Math.random`) have no exact rational meaning, so
  the model is parametrised by a `MathCtx` record supplying them.  Theorems
  that depend on the value of such a call either quantify over the context
  together with a fidelity hypothesis pinning the value at the argument
  actually used (e.g. `(ctx.sqrt a) ^ 2 = a`), or instantiate the context
  at a point where the true value is rational.
* `Date.now()` is the monotonic timestamp input `now : ℤ` (milliseconds).
* `Math.PI` is modelled by the rational constant `piQ` below; no claim
  depends on its exact value beyond `0 < piQ`.
* `Infinity` stored in the orbit cache (`calculateOrbitParameters` sentinel)
  is modelled by `Option ℚ` with `none` for the infinite value.
-/

namespace Orbital

/-- Rational stand-in for `Math.PI` (the claims only use `0 < piQ`). -/
def piQ : ℚ := 3141592653589793 / 1000000000000000

/-- External math library calls (`Math.*`), supplied to the model.
`random n` is the value of the `n`-th call to `Math.random()`. -/
structure MathCtx where
  sqrt : ℚ → ℚ
  cbrt : ℚ → ℚ
  atan2 : ℚ → ℚ → ℚ
  cos : ℚ → ℚ
  sin : ℚ → ℚ
  random : ℕ → ℚ

/-! ## Constants (`constants.js`) -/

def PLAYER_RADIUS : ℚ := 30
def DENSITY : ℚ := 1000
def SUN_GRAVITATIONAL_MASS : ℚ := 100000000000000000000
def G : ℚ := (667430 / 10000000000000000) * (1 / 10)

/-- `calculateMassFromRadius` (`utils.js`): `(4/3)·π·max(0.1,r)³·DENSITY`. -/
def calculateMassFromRadius (radius : ℚ) : ℚ :=
  (4 / 3) * piQ * (max (1/10) radius) ^ 3 * DENSITY

/-- `PLAYER_INITIAL_MASS` (set by `initDerivedConstants`). -/
def PLAYER_INITIAL_MASS : ℚ := calculateMassFromRadius PLAYER_RADIUS
def MIN_PLAYER_MASS : ℚ := PLAYER_INITIAL_MASS * (1/10)
def SUN_GAME_MASS : ℚ := PLAYER_INITIAL_MASS * 180
def GRAVITY_CROSSOVER_MULTIPLIER : ℚ := SUN_GRAVITATIONAL_MASS / SUN_GAME_MASS

def SUN_DISPLAY_RADIUS : ℚ := 120
def INIT_NUM_BODIES : ℕ := 400
def ORBIT_HISTORY_LENGTH : ℕ := 90

/-- `MIN_BODY_MASS` (set by `initBodyMassConstant`). -/
def MIN_BODY_MASS : ℚ := PLAYER_INITIAL_MASS * (5/1000)
def MIN_TRAIL_RADIUS_PX : ℚ := 3/2

def BASE_EJECTION_MASS_PERCENT : ℚ := 5/10000
def MAX_EJECTION_MULTIPLIER : ℚ := 85
def EJECTION_GROWTH_RATE : ℚ := 3
def QUICK_CLICK_THRESHOLD : ℤ := 260
def MAX_EJECTION_PERCENTAGE : ℚ := 1/2
def EJECTION_BASE_SPEED : ℚ := 1200
def EJECTION_PROPULSION_MULTIPLIER : ℚ := 45
def EJECTION_DECAY_RATE : ℚ := 97/100
def EJECTION_DECAY_INTERVAL : ℤ := 300

def MASS_TRANSFER_PERCENT_PER_SEC : ℚ := 4
def EJECTION_COLLISION_DELAY : ℤ := 300

def SUN_ABSORPTION_RATE : ℚ := 3/2
/-- `SUN_ABSORPTION_START_RATIO` in the source. -/
def absorptionStartRatio : ℚ := 2/5
def SUN_ABSORPTION_RANGE_MULTIPLIER : ℚ := 5/2

def MIN_SPARKS : ℚ := 2
def MAX_SPARKS : ℚ := 20
def SPARK_MASS : ℚ := PLAYER_INITIAL_MASS * (1/100000)
def MIN_SPARK_SPEED_MULTIPLIER : ℚ := 4/5
def MAX_SPARK_SPEED_MULTIPLIER : ℚ := 11/5
def SPARK_SPEED_RANDOMNESS : ℚ := 1/5
def MAX_SPARK_SPREAD_ANGLE : ℚ := piQ / 6
def MIN_SPARK_SPREAD_ANGLE : ℚ := piQ / 18
def SPARK_LIFESPAN : ℤ := 1600

def BASE_GAME_SPEED : ℚ := 1/10
def FAST_GAME_SPEED : ℚ := 1

def TRAIL_FADE_IN_RATE : ℚ := 3/5
def TRAIL_FADE_OUT_RATE : ℚ := 2/5
def TRAIL_PROXIMITY_FACTOR : ℚ := 26/5

/-! ## Utility functions (`utils.js`) -/

/-- `calculateRadiusFromMass`: cube-root sphere radius, `0.1` for `mass ≤ 0`. -/
def calculateRadiusFromMass (ctx : MathCtx) (mass : ℚ) : ℚ :=
  if mass ≤ 0 then 1/10
  else ctx.cbrt ((3 * (mass / DENSITY)) / (4 * piQ))

/-- `getSunDisplayRadius`: cube-root visual scaling of the game-mass fraction. -/
def getSunDisplayRadius (ctx : MathCtx) (gameMassFraction : ℚ) : ℚ :=
  SUN_DISPLAY_RADIUS * ctx.cbrt (max 0 gameMassFraction)

/-- JS `Math.round` for the non-negative values used here (half away from zero
is irrelevant: all arguments rounded in the model are `≥ 2`). -/
def jsRound (q : ℚ) : ℤ := ⌊q + 1/2⌋

/-! ## Entity model (`celestial-body.js`)

`massRaw`/`radiusRaw` are the `_mass`/`_radius` backing fields of the
`CelestialBody` class; the getters are `Body.radius` below (the `mass`
getter simply returns `massRaw`).  The `id` string (role prefix + time +
random suffix) is omitted: per the source it is used only for external
logging, never read by the simulation.  `orbitA`/`orbitB` are `Option ℚ`
(`none` = the `Infinity` sentinel). -/

structure Body where
  x : ℚ
  y : ℚ
  vx : ℚ
  vy : ℚ
  massRaw : ℚ
  radiusRaw : ℚ
  isPlayer : Bool
  isSun : Bool
  isSpark : Bool
  isGravitationalCenter : Bool
  creationTime : ℤ
  angle : ℚ
  orbitA : Option ℚ
  orbitB : Option ℚ
  orbitE : ℚ
  orbitPeriapsisAngle : ℚ
  orbitCollidesCenter : Bool
  trailOpacity : ℚ
  deriving Repr, DecidableEq

/-- `CelestialBody._calculateRadius(mass)`; reads the global
`sunCurrentGameMass` (`scgm`) for the sun. -/
def bodyCalcRadius (ctx : MathCtx) (scgm : ℚ) (isSunB : Bool) (mass : ℚ) : ℚ :=
  if isSunB then getSunDisplayRadius ctx (scgm / SUN_GAME_MASS)
  else calculateRadiusFromMass ctx mass

/-- `set mass(newMass)`: clamp to `0`, recompute `_radius`, degenerate floor. -/
def Body.setMass (ctx : MathCtx) (scgm : ℚ) (b : Body) (newMass : ℚ) : Body :=
  let m := max 0 newMass
  let r := bodyCalcRadius ctx scgm b.isSun m
  let r := if m < 1/1000000000 ∧ b.isSun = false ∧ b.isPlayer = false then 1/10 else r
  { b with massRaw := m, radiusRaw := r }

/-- `get radius()`: sun radius derives from game mass, others floor `_radius`. -/
def Body.radius (ctx : MathCtx) (scgm : ℚ) (b : Body) : ℚ :=
  if b.isSun then max 1 (getSunDisplayRadius ctx (scgm / SUN_GAME_MASS))
  else max (1/2) b.radiusRaw

/-- `new CelestialBody(x, y, vx, vy, mass, isPlayer, isSun, isSpark)` at time
`now` (its `Date.now()`); `isGravitationalCenter` is initialised to `isSun`. -/
def mkBody (ctx : MathCtx) (scgm : ℚ) (x y vx vy mass : ℚ)
    (isPlayerB isSunB isSparkB : Bool) (now : ℤ) : Body :=
  { x := x, y := y, vx := vx, vy := vy
    massRaw := mass
    radiusRaw := bodyCalcRadius ctx scgm isSunB mass
    isPlayer := isPlayerB, isSun := isSunB, isSpark := isSparkB
    isGravitationalCenter := isSunB
    creationTime := now
    angle := 0
    orbitA := some 0, orbitB := some 0, orbitE := 0
    orbitPeriapsisAngle := 0, orbitCollidesCenter := false
    trailOpacity := 0 }

/-! ## Orbit parameter record and global simulation state (`state.js`) -/

/-- Result record of `calculateOrbitParameters`; `a`/`b` are `none` for the
JS `Infinity` sentinel. -/
structure OrbitParams where
  a : Option ℚ
  b : Option ℚ
  e : ℚ
  periapsisAngle : ℚ
  collidesCenter : Bool
  deriving Repr, DecidableEq

/-- Entry of `orbitHistory` (`updateOrbitHistory` adds `absorbing` /
`absorptionProgress` to the orbit-parameter record). -/
structure OrbitHistEntry extends OrbitParams where
  absorbing : Bool
  absorptionProgress : ℚ
  deriving Repr, DecidableEq

/-- The mutable globals of `state.js` that the simulation core reads and
writes (canvas/rendering-only globals are modelled as tick inputs). -/
structure SimState where
  celestialBodies : List Body
  gravityBlendFactor : ℚ
  sunAbsorptionProgress : ℚ
  gameWon : Bool
  playerIsGravitationalCenter : Bool
  sunCurrentGameMass : ℚ
  playerNeedsReset : Bool
  collisionDetectedThisFrame : Bool
  currentGameSpeed : ℚ
  currentEjectionMultiplier : ℚ
  lastClickTime : ℤ
  lastEjectionDecayTime : ℤ
  currentWarningIntensity : ℚ
  cameraX : ℚ
  cameraY : ℚ
  cameraScale : ℚ
  orbitHistory : List OrbitHistEntry
  deriving Repr, DecidableEq

/-- Frame/environment inputs read by the core (canvas size and mouse
position in screen coordinates). -/
structure Env where
  canvasW : ℚ
  canvasH : ℚ
  mouseX : ℚ
  mouseY : ℚ
  deriving Repr, DecidableEq

/-! ## JS number semantics for finiteness claims

`JsNum` captures the IEEE-754 special values relevant to the singularity
claim C4: division of a non-zero finite number by zero yields a signed
infinity, `0/0` and `∞ · 0` yield `NaN`, and `NaN` propagates.  Overflow of
finite values is not modelled (out of scope). -/

inductive JsNum where
  | fin : ℚ → JsNum
  | posInf : JsNum
  | negInf : JsNum
  | nan : JsNum
  deriving Repr, DecidableEq

namespace JsNum

def add : JsNum → JsNum → JsNum
  | fin a, fin b => fin (a + b)
  | fin _, posInf => posInf
  | fin _, negInf => negInf
  | posInf, fin _ => posInf
  | negInf, fin _ => negInf
  | posInf, posInf => posInf
  | negInf, negInf => negInf
  | posInf, negInf => nan
  | negInf, posInf => nan
  | nan, _ => nan
  | _, nan => nan

def mul : JsNum → JsNum → JsNum
  | fin a, fin b => fin (a * b)
  | fin a, posInf => if 0 < a then posInf else if a < 0 then negInf else nan
  | posInf, fin a => if 0 < a then posInf else if a < 0 then negInf else nan
  | fin a, negInf => if 0 < a then negInf else if a < 0 then posInf else nan
  | negInf, fin a => if 0 < a then negInf else if a < 0 then posInf else nan
  | posInf, posInf => posInf
  | negInf, negInf => posInf
  | posInf, negInf => negInf
  | negInf, posInf => negInf
  | nan, _ => nan
  | _, nan => nan

def div : JsNum → JsNum → JsNum
  | fin a, fin b =>
      if b ≠ 0 then fin (a / b)
      else if 0 < a then posInf else if a < 0 then negInf else nan
  | fin _, posInf => fin 0
  | fin _, negInf => fin 0
  | posInf, fin a => if 0 ≤ a then posInf else negInf
  | negInf, fin a => if 0 ≤ a then negInf else posInf
  | posInf, posInf => nan
  | posInf, negInf => nan
  | negInf, posInf => nan
  | negInf, negInf => nan
  | nan, _ => nan
  | _, nan => nan

def isFinite : JsNum → Bool
  | fin _ => true
  | _ => false

end JsNum

/-- The per-body velocity update of the gravity loops (`physics.js`
lines 49–56, 67–74 and 84–91), in JS number semantics: `dx`,`dy` point from
the body to the source, `dist` is the JS value of `Math.sqrt(distSq + 1e-6)`
(pinned by fidelity hypotheses in the theorems), and the result is the
updated `(vx, vy)`.  Note the source computes `acc = G·effMass / distSq`
with the *raw* squared distance; only the direction normalisation divides
by the floored `dist`. -/
def gravityKickJs (effMass gameDt dx dy dist vx vy : ℚ) : JsNum × JsNum :=
  let distSq := dx * dx + dy * dy
  if 0 < dist then
    let acc := JsNum.div (.fin (G * effMass)) (.fin distSq)
    (JsNum.add (.fin vx)
      (JsNum.mul (JsNum.div (JsNum.mul acc (.fin dx)) (.fin dist)) (.fin gameDt)),
     JsNum.add (.fin vy)
      (JsNum.mul (JsNum.div (JsNum.mul acc (.fin dy)) (.fin dist)) (.fin gameDt)))
  else (.fin vx, .fin vy)

/-! ## Collision detection and mass transfer (`collision.js`) -/

/-- The immunity flag `n1`/`n2` of `checkCollisions` (lines 30–31): a young,
ordinary (non-spark, non-sun, non-player) body. -/
def immuneFlag (now : ℤ) (b : Body) : Bool :=
  !b.isSpark && !b.isSun && !b.isPlayer &&
    decide (now - b.creationTime < EJECTION_COLLISION_DELAY)

/-- The pair exclusion rules of `checkCollisions` (lines 33–40), `true` when
the pair is skipped before the distance test. -/
def pairExcluded (now : ℤ) (b1 b2 : Body) : Bool :=
  let n1 := immuneFlag now b1
  let n2 := immuneFlag now b2
  (b1.isPlayer && b2.isSpark) || (b2.isPlayer && b1.isSpark) ||
  (b1.isSpark && b2.isSpark) ||
  (b1.isPlayer && n2) || (b2.isPlayer && n1) ||
  (b1.isSpark && n2) || (b2.isSpark && n1) ||
  (n1 && n2) ||
  (b1.isSpark && !b2.isSpark && !b2.isPlayer && !b2.isGravitationalCenter) ||
  (b2.isSpark && !b1.isSpark && !b1.isPlayer && !b1.isGravitationalCenter) ||
  (b1.isPlayer && b2.isSun) || (b2.isPlayer && b1.isSun)

/-- The transfer amount of `checkCollisions` (lines 54–56): sparks transfer
their entire mass, others a fixed percentage per second, capped at the
small body's mass and clamped to be non-negative. -/
def transferAmount (small : Body) (dt : ℚ) : ℚ :=
  let t := if small.isSpark then small.massRaw
           else min small.massRaw (small.massRaw * MASS_TRANSFER_PERCENT_PER_SEC * dt)
  max 0 t

/-- The pair resolution of `checkCollisions` (lines 54–67): momentum update
of a player "big" side, then the mass transfer through the `mass` setter.
Returns `(big', small', transfer)`. -/
def resolvePairCore (ctx : MathCtx) (scgm dt : ℚ) (big small : Body) :
    Body × Body × ℚ :=
  let transfer := transferAmount small dt
  let big1 :=
    if big.isPlayer ∧ 0 < transfer then
      let total := big.massRaw + transfer
      if 1/1000000000 < total then
        { big with vx := (big.massRaw * big.vx + transfer * small.vx) / total
                   vy := (big.massRaw * big.vy + transfer * small.vy) / total }
      else big
    else big
  (big1.setMass ctx scgm (big1.massRaw + transfer),
   small.setMass ctx scgm (small.massRaw - transfer),
   transfer)

/-- Outcome of processing one pair `(i, j)` of the collision loop. -/
inductive PairOut where
  | next : PairOut
  | removed : ℕ → PairOut
  | reset : PairOut
  deriving Repr, DecidableEq

/-- One iteration of the inner pair loop of `checkCollisions` (lines 26–77)
for the pair at indices `(i, j)`.  Returns the updated list, the updated
`collisionDetectedThisFrame` flag and the loop outcome: `next` to fall
through to `j-1`, `removed bigI` for the splice-and-break path (lines
71–77), `reset` for the player-below-floor return (line 69). -/
def collidePair (ctx : MathCtx) (scgm : ℚ) (now : ℤ) (dt : ℚ)
    (bodies : List Body) (det : Bool) (i j : ℕ) :
    List Body × Bool × PairOut :=
  match bodies[i]?, bodies[j]? with
  | some b1, some b2 =>
    if pairExcluded now b1 b2 then (bodies, det, .next)
    else
      let dx := b2.x - b1.x
      let dy := b2.y - b1.y
      let distSq := dx * dx + dy * dy
      let cr := b1.radius ctx scgm + b2.radius ctx scgm
      if cr * cr ≤ distSq then (bodies, det, .next)
      else
        -- line 47: collisionDetectedThisFrame = true
        let det := true
        let bs :=
          if b2.massRaw ≤ b1.massRaw then ((b1, i), (b2, j)) else ((b2, j), (b1, i))
        let big := bs.1.1
        let bigI := bs.1.2
        let small := bs.2.1
        let smallI := bs.2.2
        if small.isGravitationalCenter ∨ big.isSpark then (bodies, det, .next)
        else
          let r := resolvePairCore ctx scgm dt big small
          let big' := r.1
          let small' := r.2.1
          let transfer := r.2.2
          let bodies := (bodies.set bigI big').set smallI small'
          if small'.isPlayer ∧ small'.massRaw < MIN_PLAYER_MASS then
            (bodies, det, .reset)
          else if small'.massRaw ≤ MIN_BODY_MASS ∨
              (small'.isSpark ∧ small'.massRaw * (99/100) ≤ transfer) then
            let bodies := (bodies.set smallI { small' with trailOpacity := 0 }).eraseIdx smallI
            (bodies, det, .removed (if smallI < bigI then bigI - 1 else bigI))
          else (bodies, det, .next)
  | _, _ => (bodies, det, .next)

/-- Outcome of a full inner loop pass. -/
inductive InnerOut where
  | done : InnerOut
  | removed : ℕ → InnerOut
  | reset : InnerOut
  deriving Repr, DecidableEq

/-- The inner `j` loop of `checkCollisions` for fixed outer index `i`,
processing `j, j-1, …, 0`. -/
def innerLoop (ctx : MathCtx) (scgm : ℚ) (now : ℤ) (dt : ℚ) (i : ℕ) :
    ℕ → List Body → Bool → List Body × Bool × InnerOut
  | j, bodies, det =>
    match collidePair ctx scgm now dt bodies det i j with
    | (bs, d, .removed k) => (bs, d, .removed k)
    | (bs, d, .reset) => (bs, d, .reset)
    | (bs, d, .next) =>
      match j with
      | 0 => (bs, d, .done)
      | j' + 1 => innerLoop ctx scgm now dt i j' bs d

/-- The outer `i` loop of `checkCollisions`.  `fuel` bounds the number of
outer iterations; since `i` strictly decreases in every step, the fuel
`length + 1` supplied by `checkCollisions` never runs out.  The `pnr` check
after the inner loop mirrors line 79 (reachable with `pnr = true` only when
`playerNeedsReset` was already set before the call). -/
def outerLoop (ctx : MathCtx) (scgm : ℚ) (now : ℤ) (dt : ℚ) :
    ℕ → List Body → Bool → Bool → ℤ → List Body × Bool × Bool
  | 0, bodies, det, pnr, _ => (bodies, det, pnr)
  | fuel + 1, bodies, det, pnr, i =>
    if i < 0 then (bodies, det, pnr)
    else
      let iN := i.toNat
      let r :=
        if iN = 0 then (bodies, det, InnerOut.done)
        else innerLoop ctx scgm now dt iN (iN - 1) bodies det
      match r with
      | (bs, d, .reset) => (bs, d, true)
      | (bs, d, .done) =>
          if pnr then (bs, d, pnr)
          else outerLoop ctx scgm now dt fuel bs d pnr (i - 1)
      | (bs, d, .removed k) =>
          if pnr then (bs, d, pnr)
          else outerLoop ctx scgm now dt fuel bs d pnr ((k : ℤ) - 1)

/-- `checkCollisions(dt)` (`collision.js`): iterate all pairs, resolve mass
transfer, splice exhausted bodies, set `playerNeedsReset` when the player
falls below the floor. -/
def checkCollisions (ctx : MathCtx) (now : ℤ) (dt : ℚ) (s : SimState) : SimState :=
  let r := outerLoop ctx s.sunCurrentGameMass now dt
    (s.celestialBodies.length + 1) s.celestialBodies
    s.collisionDetectedThisFrame s.playerNeedsReset
    ((s.celestialBodies.length : ℤ) - 1)
  { s with celestialBodies := r.1
           collisionDetectedThisFrame := r.2.1
           playerNeedsReset := r.2.2 }

/-- Index-aware map, used to model JS loops that mutate every element except
the one at a known index (object-identity tests become index tests). -/
def mapWithIndex (f : ℕ → α → α) : ℕ → List α → List α
  | _, [] => []
  | i, a :: as => f i a :: mapWithIndex f (i + 1) as

/-! ## Mass ejection (`ejection.js`) -/

/-- The combo-multiplier update of `ejectMass` (lines 30–32): quick clicks
grow the multiplier (capped), otherwise it resets to 1. -/
def comboMultiplier (now : ℤ) (s : SimState) : ℚ :=
  if now - s.lastClickTime ≤ QUICK_CLICK_THRESHOLD then
    min (s.currentEjectionMultiplier * EJECTION_GROWTH_RATE) MAX_EJECTION_MULTIPLIER
  else 1

/-- `ejectMass()`: combo multiplier update, ejected-mass computation with
the minimum-mass floor (abort when nothing positive remains), spawning of
the main ejected body and cosmetic sparks, and the recoil impulse.
`rnd` is the index of the next unconsumed `Math.random()` draw. -/
def ejectMass (ctx : MathCtx) (env : Env) (now : ℤ) (rnd : ℕ) (s : SimState) :
    SimState :=
  match s.celestialBodies.findIdx? (·.isPlayer) with
  | none => s
  | some pIdx =>
    match s.celestialBodies[pIdx]? with
    | none => s
    | some player =>
      if player.massRaw ≤ MIN_PLAYER_MASS then s
      else
        let initMass := player.massRaw
        let mult := comboMultiplier now s
        let ejected0 := min (initMass * BASE_EJECTION_MASS_PERCENT * mult)
          (initMass * MAX_EJECTION_PERCENTAGE)
        if initMass - ejected0 < MIN_PLAYER_MASS ∧ initMass - MIN_PLAYER_MASS ≤ 1/1000000000 then
          -- line 37: abort; the multiplier update above has already happened
          { s with currentEjectionMultiplier := mult }
        else
          let ejectedMass :=
            if initMass - ejected0 < MIN_PLAYER_MASS then initMass - MIN_PLAYER_MASS
            else ejected0
          let intRange := MAX_EJECTION_PERCENTAGE - BASE_EJECTION_MASS_PERCENT
          let normInt0 :=
            if 1/1000000000 < intRange then
              ((ejectedMass / initMass) - BASE_EJECTION_MASS_PERCENT) / intRange
            else 0
          let normInt := max 0 (min 1 normInt0)
          let numSparks := jsRound (MIN_SPARKS + (MAX_SPARKS - MIN_SPARKS) * normInt)
          let sparkSpeedMult := MIN_SPARK_SPEED_MULTIPLIER +
            (MAX_SPARK_SPEED_MULTIPLIER - MIN_SPARK_SPEED_MULTIPLIER) * normInt * 170
          let sparkSpreadAngle := MAX_SPARK_SPREAD_ANGLE -
            (MAX_SPARK_SPREAD_ANGLE - MIN_SPARK_SPREAD_ANGLE) * normInt * 15
          let speedF :=
            if 1/1000000000 < ejectedMass then
              ctx.sqrt ((initMass * BASE_EJECTION_MASS_PERCENT) / ejectedMass)
            else 1
          let mainSpeed := EJECTION_BASE_SPEED * speedF
          -- line 51: player.mass -= ejectedMass
          let playerA := player.setMass ctx s.sunCurrentGameMass (player.massRaw - ejectedMass)
          let px := (playerA.x - s.cameraX) * s.cameraScale + env.canvasW / 2
          let py := (playerA.y - s.cameraY) * s.cameraScale + env.canvasH / 2
          let angle := ctx.atan2 (env.mouseY - py) (env.mouseX - px)
          let mainBodies :=
            if MIN_BODY_MASS ≤ ejectedMass then
              let er := calculateRadiusFromMass ctx ejectedMass
              let sd := playerA.radius ctx s.sunCurrentGameMass + er * (11/10)
              [mkBody ctx s.sunCurrentGameMass
                (playerA.x + ctx.cos angle * sd) (playerA.y + ctx.sin angle * sd)
                (playerA.vx + ctx.cos angle * mainSpeed)
                (playerA.vy + ctx.sin angle * mainSpeed)
                ejectedMass false false false now]
            else []
          let sparks :=
            if 0 < numSparks then
              let sr := calculateRadiusFromMass ctx SPARK_MASS
              let sd := playerA.radius ctx s.sunCurrentGameMass + sr * (3/2)
              (List.range numSparks.toNat).map fun k =>
                let sa := angle + (ctx.random (rnd + 2 * k) - 1/2) * sparkSpreadAngle
                let ss := mainSpeed * sparkSpeedMult *
                  (1 + (ctx.random (rnd + 2 * k + 1) - 1/2) * 2 * SPARK_SPEED_RANDOMNESS)
                mkBody ctx s.sunCurrentGameMass
                  (playerA.x + ctx.cos angle * sd) (playerA.y + ctx.sin angle * sd)
                  (playerA.vx + ctx.cos sa * ss) (playerA.vy + ctx.sin sa * ss)
                  SPARK_MASS false false true now
            else []
          let playerB :=
            if 1/1000000000 < playerA.massRaw then
              let imp := (ejectedMass * mainSpeed / playerA.massRaw) * EJECTION_PROPULSION_MULTIPLIER
              { playerA with vx := playerA.vx - ctx.cos angle * imp
                             vy := playerA.vy - ctx.sin angle * imp }
            else playerA
          { s with
            celestialBodies := (s.celestialBodies.set pIdx playerB) ++ mainBodies ++ sparks
            currentEjectionMultiplier := mult
            lastClickTime := now }

/-- `decayEjectionMultiplier()`: relax the combo multiplier after a quiet
period, at fixed intervals. -/
def decayEjectionMultiplier (now : ℤ) (s : SimState) : SimState :=
  if QUICK_CLICK_THRESHOLD < now - s.lastClickTime ∧
      EJECTION_DECAY_INTERVAL < now - s.lastEjectionDecayTime then
    { s with
      currentEjectionMultiplier := max 1 (s.currentEjectionMultiplier * EJECTION_DECAY_RATE)
      lastEjectionDecayTime := now }
  else s

/-! ## Sun absorption (`absorption.js`) -/

/-- `checkSunAbsorption(dt)`.  The second component returns the final record
of the sun object the function operated on (`some` whenever both player and
sun were found): `updatePhysics` holds an alias to the sun across this call
and keeps using it even when the win transition has spliced the sun out of
the registry. -/
def checkSunAbsorption (ctx : MathCtx) (dt : ℚ) (s : SimState) :
    SimState × Option Body :=
  if s.gameWon then (s, none)
  else
    match s.celestialBodies.findIdx? (·.isPlayer), s.celestialBodies.findIdx? (·.isSun) with
    | some pIdx, some sIdx =>
      match s.celestialBodies[pIdx]?, s.celestialBodies[sIdx]? with
      | some player, some sun =>
        let gameDt := dt * s.currentGameSpeed
        let massRatio := player.massRaw / SUN_GAME_MASS
        let canAbsorb := absorptionStartRatio ≤ massRatio
        let dx := sun.x - player.x
        let dy := sun.y - player.y
        let dist := ctx.sqrt (dx * dx + dy * dy)
        let touchDist := player.radius ctx s.sunCurrentGameMass +
          sun.radius ctx s.sunCurrentGameMass
        let absorptionRange := touchDist * SUN_ABSORPTION_RANGE_MULTIPLIER
        if ¬canAbsorb then
          let s1 := if dist < touchDist * (4/5) then { s with playerNeedsReset := true } else s
          ({ s1 with gravityBlendFactor := max 0 (s.gravityBlendFactor - (1/2) * dt) }, some sun)
        else if absorptionRange < dist then
          ({ s with gravityBlendFactor := max 0 (s.gravityBlendFactor - (3/10) * dt) }, some sun)
        else
          let proximity := max 0 (min 1
            (1 - (dist - touchDist * (1/2)) / (absorptionRange - touchDist * (1/2))))
          let advantage := min 2 ((massRatio - absorptionStartRatio) / (1 - absorptionStartRatio))
          let rate := SUN_ABSORPTION_RATE * proximity * max (1/5) advantage
          let transfer := max 0 (min (s.sunCurrentGameMass * rate * gameDt) s.sunCurrentGameMass)
          if transfer ≤ 0 then (s, some sun)
          else
            let totalAfter := player.massRaw + transfer
            let player1 :=
              if 1/1000000000 < totalAfter then
                { player with
                  vx := (player.massRaw * player.vx + transfer * sun.vx) / totalAfter
                  vy := (player.massRaw * player.vy + transfer * sun.vy) / totalAfter }
              else player
            let player2 := player1.setMass ctx s.sunCurrentGameMass (player1.massRaw + transfer)
            let scgm1 := s.sunCurrentGameMass - transfer
            let sun1 := sun.setMass ctx scgm1 scgm1
            let progress := 1 - scgm1 / SUN_GAME_MASS
            let s1 := { s with
              celestialBodies := (s.celestialBodies.set pIdx player2).set sIdx sun1
              sunCurrentGameMass := scgm1
              sunAbsorptionProgress := progress
              gravityBlendFactor := min 1 progress }
            if scgm1 < SUN_GAME_MASS * (2/100) then
              -- win transition (lines 83-99)
              let player3 := player2.setMass ctx scgm1 (player2.massRaw + scgm1)
              let player4 := { player3 with isGravitationalCenter := true }
              let bodies1 := s1.celestialBodies.set pIdx player4
              let bodies2 := bodies1.eraseIdx sIdx
              let pIdx' := if sIdx < pIdx then pIdx - 1 else pIdx
              let bodies3 := mapWithIndex
                (fun k b => if k = pIdx' then b else { b with isGravitationalCenter := false })
                0 bodies2
              ({ s1 with
                 gameWon := true
                 playerIsGravitationalCenter := true
                 gravityBlendFactor := 1
                 sunCurrentGameMass := 0
                 celestialBodies := bodies3
                 orbitHistory := [] }, some sun1)
            else (s1, some sun1)
      | _, _ => (s, none)
    | _, _ => (s, none)

/-! ## Orbit parameter solver (`physics.js`, lines 178–227) -/

/-- `calculateOrbitParameters(body, center)`.  `bodies`/`gbf`/`scgm` are the
globals read (`celestialBodies`, `gravityBlendFactor`,
`sunCurrentGameMass`); `sameRef` is the outcome of the JS reference test
`body === center` at the call site.  In exact arithmetic `isFinite` checks
are always true, so the sentinel is produced exactly by the energy and
semi-major-axis branch conditions. -/
def calculateOrbitParameters (ctx : MathCtx) (bodies : List Body)
    (gbf scgm : ℚ) (body center : Body) (sameRef : Bool) : OrbitParams :=
  if body.massRaw ≤ 0 ∨ body.isSpark ∨ sameRef then
    { a := some 0, b := some 0, e := 0, periapsisAngle := 0, collidesCenter := false }
  else
    let rx := body.x - center.x
    let ry := body.y - center.y
    let r := ctx.sqrt (rx * rx + ry * ry + 1/1000000000)
    let cvx := if center.isPlayer ∧ center.isGravitationalCenter then 0 else center.vx
    let cvy := if center.isPlayer ∧ center.isGravitationalCenter then 0 else center.vy
    let vx := body.vx - cvx
    let vy := body.vy - cvy
    let vSq := vx * vx + vy * vy
    let rdotv := rx * vx + ry * vy
    let effectiveGravMass :=
      if center.isSun then
        let base := SUN_GRAVITATIONAL_MASS * (1 - gbf)
        match bodies.find? (·.isPlayer) with
        | some pl =>
          if 0 < gbf then base + pl.massRaw * GRAVITY_CROSSOVER_MULTIPLIER * gbf else base
        | none => base
      else if center.isPlayer ∧ center.isGravitationalCenter then
        center.massRaw * GRAVITY_CROSSOVER_MULTIPLIER
      else center.massRaw
    let mu := G * (effectiveGravMass + body.massRaw)
    let E := vSq / 2 - mu / r
    if -(1/1000000000) ≤ E then
      { a := none, b := none, e := 1, periapsisAngle := 0, collidesCenter := false }
    else
      let a := -mu / (2 * E)
      if a ≤ 0 then
        { a := none, b := none, e := 1, periapsisAngle := 0, collidesCenter := false }
      else
        let h := rx * vy - ry * vx
        let eSq := 1 + (2 * E * h * h) / (mu * mu)
        let e := if 1/1000000000 < eSq then ctx.sqrt eSq else 0
        let bAxis := a * ctx.sqrt (max 0 (1 - e * e))
        let muInv := 1 / mu
        let rInv := 1 / r
        let fac := vSq * muInv - rInv
        let ex := fac * rx - rdotv * vx * muInv
        let ey := fac * ry - rdotv * vy * muInv
        { a := some a, b := some bAxis, e := e
          periapsisAngle := ctx.atan2 ey ex
          collidesCenter :=
            decide (a * (1 - e) ≤ center.radius ctx scgm + body.radius ctx scgm) }

/-! ## Game-state management (`game-state.js`, `population.js`) -/

/-- One loop iteration of `populateSystem`: spawn a body in orbit around the
gravitational center; `r` is the index of its first `Math.random()` draw
(each iteration consumes five draws). -/
def spawnOne (ctx : MathCtx) (scgm : ℚ) (center : Body) (now : ℤ) (r : ℕ) : Body :=
  let angle := ctx.random r * piQ * 2
  let baseDist := max (center.radius ctx scgm) SUN_DISPLAY_RADIUS
  let distance := baseDist * (7/2) + ctx.random (r + 1) * baseDist * 15
  let x := center.x + ctx.cos angle * distance
  let y := center.y + ctx.sin angle * distance
  let gravMass :=
    if center.isSun then SUN_GRAVITATIONAL_MASS
    else center.massRaw * GRAVITY_CROSSOVER_MULTIPLIER
  let orbitalSpeed := ctx.sqrt ((G * gravMass) / max 1 distance)
  let sf := 9/10 + ctx.random (r + 2) * (1/5)
  let vx := center.vx - ctx.sin angle * orbitalSpeed * sf
  let vy := center.vy + ctx.cos angle * orbitalSpeed * sf
  let rand := ctx.random (r + 3)
  let mass0 :=
    if rand < 7/10 then PLAYER_INITIAL_MASS * (2/100 + ctx.random (r + 4) * (1/5))
    else if rand < 9/10 then PLAYER_INITIAL_MASS * (2/5 + ctx.random (r + 4) * (1/2))
    else PLAYER_INITIAL_MASS * (11/10 + ctx.random (r + 4) * (7/5))
  let mass := max MIN_BODY_MASS mass0
  mkBody ctx scgm x y vx vy mass false false false now

/-- `populateSystem(numMasses)` (`population.js`): append `numMasses`
ordinary bodies in orbit around the gravitational center. -/
def populateSystem (ctx : MathCtx) (numMasses : ℕ) (now : ℤ) (rnd : ℕ)
    (s : SimState) : SimState :=
  match s.celestialBodies.find? (·.isGravitationalCenter) with
  | none => s
  | some center =>
    let newBodies := (List.range numMasses).map fun i =>
      spawnOne ctx s.sunCurrentGameMass center now (rnd + 5 * i)
    { s with celestialBodies := s.celestialBodies ++ newBodies }

/-- `resetPlayer()` (`game-state.js`): rebuild sun, player and population
and reset all per-session global state.  The `push` of a freshly created
sun into the old registry (line 21) is immediately superseded by the
wholesale replacement `celestialBodies = [sun]` (line 31). -/
def resetPlayer (ctx : MathCtx) (env : Env) (now : ℤ) (rnd : ℕ) (s : SimState) :
    SimState :=
  let sun0 :=
    match s.celestialBodies.find? (·.isSun) with
    | none => mkBody ctx s.sunCurrentGameMass 0 0 0 0 SUN_GAME_MASS false true false now
    | some sun =>
      ({ sun with isGravitationalCenter := true }).setMass ctx s.sunCurrentGameMass SUN_GAME_MASS
  let scgm1 := SUN_GAME_MASS
  let orbitR := max (sun0.radius ctx scgm1 * (3/2)) (min env.canvasW env.canvasH * (35/100))
  let orbSpeed := ctx.sqrt ((G * SUN_GRAVITATIONAL_MASS) / orbitR)
  let p0 := mkBody ctx scgm1 sun0.x (sun0.y - orbitR) (sun0.vx + orbSpeed) sun0.vy
    PLAYER_INITIAL_MASS true false false now
  let p := { p0 with isGravitationalCenter := false }
  -- line 40: sun.isGravitationalCenter = true (already set)
  let sun1 := { sun0 with isGravitationalCenter := true }
  let s1 := { s with
    celestialBodies := [sun1, p]
    sunCurrentGameMass := scgm1
    gameWon := false
    playerIsGravitationalCenter := false
    sunAbsorptionProgress := 0
    gravityBlendFactor := 0 }
  let s2 := populateSystem ctx INIT_NUM_BODIES now rnd s1
  { s2 with
    orbitHistory := []
    currentEjectionMultiplier := 1
    lastClickTime := 0
    lastEjectionDecayTime := 0
    currentWarningIntensity := 0
    cameraX := p.x
    cameraY := p.y
    cameraScale := 1
    playerNeedsReset := false }

/-- `calculateWarningIntensity()` (`game-state.js`): low-mass warning. -/
def calculateWarningIntensity (s : SimState) : ℚ :=
  match s.celestialBodies.find? (·.isPlayer) with
  | none => 0
  | some player =>
    if s.gameWon ∨ 0 < s.sunAbsorptionProgress then 0
    else
      let range := PLAYER_INITIAL_MASS - MIN_PLAYER_MASS
      if range ≤ 0 then 0
      else
        let ratio := (player.massRaw - MIN_PLAYER_MASS) / range
        if 1/2 < ratio then 0
        else max 0 (min 1 (1 - ratio / (1/2)))

/-- `updateOrbitHistory()` (`game-state.js`): push the player's current
orbit parameters relative to the sun (`center = sun || null`) onto the
history, keeping at most `ORBIT_HISTORY_LENGTH` entries. -/
def updateOrbitHistory (ctx : MathCtx) (s : SimState) : SimState :=
  match s.celestialBodies.findIdx? (·.isPlayer), s.celestialBodies.findIdx? (·.isSun) with
  | some pIdx, some sIdx =>
    match s.celestialBodies[pIdx]?, s.celestialBodies[sIdx]? with
    | some player, some sun =>
      if pIdx = sIdx then { s with orbitHistory := [] }
      else
        let p := calculateOrbitParameters ctx s.celestialBodies s.gravityBlendFactor
          s.sunCurrentGameMass player sun false
        match p.a, p.b with
        | some av, some bv =>
          if 0 < av ∧ 0 < bv then
            let entry : OrbitHistEntry :=
              { toOrbitParams := p
                absorbing := decide (0 < s.sunAbsorptionProgress)
                absorptionProgress := s.sunAbsorptionProgress }
            { s with orbitHistory := (entry :: s.orbitHistory).take ORBIT_HISTORY_LENGTH }
          else s
        | _, _ => s
    | _, _ => { s with orbitHistory := [] }
  | _, _ => { s with orbitHistory := [] }

/-! ## Physics tick (`physics.js`, lines 23–176) -/

/-- The cleanup filter (lines 28–36): drop expired sparks and ordinary
bodies below the minimum mass. -/
def cleanupKeep (now : ℤ) (b : Body) : Bool :=
  !(b.isSpark && decide (SPARK_LIFESPAN ≤ now - b.creationTime)) &&
  !(!b.isPlayer && !b.isGravitationalCenter && !b.isSun && !b.isSpark &&
    decide (b.massRaw < MIN_BODY_MASS))

/-- The per-body gravity velocity kick (lines 49–56 / 67–74 / 84–91) in
exact rational arithmetic, used for state evolution.  Rational division by
zero yields `0` here; the `gravityKickJs` variant above tracks the JS
non-finite values for the singularity claim. -/
def applyGravityFrom (ctx : MathCtx) (srcX srcY effMass gameDt : ℚ) (b : Body) :
    Body :=
  let dx := srcX - b.x
  let dy := srcY - b.y
  let distSq := dx * dx + dy * dy
  let dist := ctx.sqrt (distSq + 1/1000000)
  if 0 < dist then
    let acc := G * effMass / distSq
    { b with vx := b.vx + acc * dx / dist * gameDt
             vy := b.vy + acc * dy / dist * gameDt }
  else b

/-- Sun gravity loop (lines 43–58): every body except the sun itself. -/
def sunGravityPhase (ctx : MathCtx) (gameDt : ℚ) (sunIdx? : Option ℕ)
    (s : SimState) : SimState :=
  if s.gravityBlendFactor < 1 then
    match sunIdx? with
    | some sunIdx =>
      match s.celestialBodies[sunIdx]? with
      | some sun =>
        let effMass := SUN_GRAVITATIONAL_MASS * (1 - s.gravityBlendFactor)
        { s with celestialBodies := (mapWithIndex
            (fun i b => if i = sunIdx ∨ b.massRaw ≤ 0 then b
                        else applyGravityFrom ctx sun.x sun.y effMass gameDt b)
            0 s.celestialBodies) }
      | none => s
    | none => s
  else s

/-- Player gravity loop (lines 61–76): every body except the player and the
sun. -/
def playerGravityPhase (ctx : MathCtx) (gameDt : ℚ) (playerIdx? : Option ℕ)
    (s : SimState) : SimState :=
  if 0 < s.gravityBlendFactor then
    match playerIdx? with
    | some playerIdx =>
      match s.celestialBodies[playerIdx]? with
      | some player =>
        if 0 < player.massRaw then
          let effMass := player.massRaw * GRAVITY_CROSSOVER_MULTIPLIER * s.gravityBlendFactor
          { s with celestialBodies := (mapWithIndex
              (fun i b => if i = playerIdx ∨ b.massRaw ≤ 0 ∨ b.isSun then b
                          else applyGravityFrom ctx player.x player.y effMass gameDt b)
              0 s.celestialBodies) }
        else s
      | none => s
    | none => s
  else s

/-- Post-win gravity loop (lines 79–93): player as sole source. -/
def postWinGravityPhase (ctx : MathCtx) (gameDt : ℚ) (sunIdx? playerIdx? : Option ℕ)
    (s : SimState) : SimState :=
  if sunIdx?.isNone ∧ s.gameWon then
    match playerIdx? with
    | some playerIdx =>
      match s.celestialBodies[playerIdx]? with
      | some player =>
        let gm := player.massRaw * GRAVITY_CROSSOVER_MULTIPLIER
        { s with celestialBodies := (mapWithIndex
            (fun i b => if i = playerIdx ∨ b.massRaw ≤ 0 then b
                        else applyGravityFrom ctx player.x player.y gm gameDt b)
            0 s.celestialBodies) }
      | none => s
    | none => s
  else s

/-- Velocity clamp and explicit-Euler position update of one body, plus the
player aiming angle (lines 100–116).  `MAX_V = 15000` is the local constant
of the source. -/
def integrateBody (ctx : MathCtx) (env : Env) (gameDt camX camY camScale : ℚ)
    (b : Body) : Body :=
  let sSq := b.vx * b.vx + b.vy * b.vy
  let b1 :=
    if 15000 * 15000 < sSq then
      let f := 15000 / ctx.sqrt sSq
      { b with vx := b.vx * f, vy := b.vy * f }
    else b
  let b2 := { b1 with x := b1.x + b1.vx * gameDt, y := b1.y + b1.vy * gameDt }
  if b2.isPlayer then
    let px := (b2.x - camX) * camScale + env.canvasW / 2
    let py := (b2.y - camY) * camScale + env.canvasH / 2
    { b2 with angle := ctx.atan2 (env.mouseY - py) (env.mouseX - px) }
  else b2

/-- One body of the orbit-parameter/trail stage (lines 133–163).  The loop
only writes the orbit cache and `trailOpacity` of the body at hand, so the
sequential JS loop is equivalent to this per-index map over the stage's
input list. -/
def orbitPhaseBody (ctx : MathCtx) (dt : ℚ) (s : SimState)
    (effCenterIdx? : Option ℕ) (effCenter : Body)
    (proxIdx? : Option ℕ) (proxPlayer? : Option Body) (maxDistSq : ℚ)
    (idx : ℕ) (b : Body) : Body :=
  if some idx = effCenterIdx? ∨ b.isSpark ∨ b.massRaw ≤ 0 then b
  else if some idx = proxIdx? ∧ effCenterIdx? = proxIdx? then b
  else if b.radius ctx s.sunCurrentGameMass * s.cameraScale < MIN_TRAIL_RADIUS_PX ∧
      b.isPlayer = false then
    { b with trailOpacity := 0 }
  else
    let params := calculateOrbitParameters ctx s.celestialBodies s.gravityBlendFactor
      s.sunCurrentGameMass b effCenter false
    let b1 := { b with orbitA := params.a, orbitB := params.b, orbitE := params.e
                       orbitPeriapsisAngle := params.periapsisAngle
                       orbitCollidesCenter := params.collidesCenter }
    if b1.isPlayer then b1
    else
      let targetOp : ℚ :=
        if 1/2 < s.gravityBlendFactor then 1
        else
          match proxPlayer? with
          | some pp =>
            if 0 < maxDistSq ∧
                (b1.x - pp.x) * (b1.x - pp.x) + (b1.y - pp.y) * (b1.y - pp.y) ≤ maxDistSq
            then 1 else 0
          | none => 0
      let rate := if b1.trailOpacity < targetOp then TRAIL_FADE_IN_RATE else TRAIL_FADE_OUT_RATE
      let t1 :=
        if b1.trailOpacity < targetOp then min targetOp (b1.trailOpacity + rate * dt)
        else max targetOp (b1.trailOpacity - rate * dt)
      { b1 with trailOpacity := max 0 (min 1 t1) }

/-- The tick pipeline up to (excluding) the collision stage
(lines 24–116): cleanup, the three gravity loops, the fatal-state check and
position integration.  Every use of time in this part is the *scaled*
`gameDt`; `currentGameSpeed` is read only through that product. -/
def tickBeforeCollisions (ctx : MathCtx) (env : Env) (now : ℤ) (gameDt : ℚ)
    (s : SimState) : SimState :=
  let s0 := { s with collisionDetectedThisFrame := false }
  let s1 := { s0 with celestialBodies := s0.celestialBodies.filter (cleanupKeep now) }
  let sunIdx? := s1.celestialBodies.findIdx? (·.isSun)
  let playerIdx? := s1.celestialBodies.findIdx? (·.isPlayer)
  let s2 := sunGravityPhase ctx gameDt sunIdx? s1
  let s3 := playerGravityPhase ctx gameDt playerIdx? s2
  let s4 := postWinGravityPhase ctx gameDt sunIdx? playerIdx? s3
  let s4a :=
    if sunIdx?.isNone ∧ playerIdx?.isNone ∧ s4.gameWon = false then
      { s4 with playerNeedsReset := true }
    else s4
  { s4a with celestialBodies :=
    s4a.celestialBodies.map (integrateBody ctx env gameDt s4a.cameraX s4a.cameraY s4a.cameraScale) }

/-- The tick pipeline after the collision stage (lines 120–175):
reset-on-demand, absorption, orbit parameters/trails, camera, warning,
orbit history and ejection-multiplier decay.  `sunIdx?`/`playerIdx?` are
the `sun`/`player` alias lookups of lines 39–40 (computed on the
post-cleanup registry).

Alias note: the locals `sun`/`player` of lines 39–40 alias objects in the
registry; after the win transition has spliced the sun out, line 126 keeps
using the stale sun object.  The model reproduces this by falling back to
the final sun record returned by `checkSunAbsorption` when the current
registry no longer contains a sun (under the state invariant these are the
only ways a sun can disappear mid-tick). -/
def tickAfterCollisions (ctx : MathCtx) (env : Env) (now : ℤ) (rnd : ℕ) (dt : ℚ)
    (sunIdx? playerIdx? : Option ℕ) (s5 : SimState) : SimState :=
  if s5.playerNeedsReset then resetPlayer ctx env now rnd s5
  else
    let r6 := checkSunAbsorption ctx dt s5
    let s6 := r6.1
    -- line 126: effectiveCenter = sun || (gameWon ? player : null)
    let sunAliasFinal : Option Body :=
      match sunIdx? with
      | none => none
      | some _ => (s6.celestialBodies.find? (·.isSun)).orElse fun _ => r6.2
    let effCenter? : Option (Option ℕ × Body) :=
      match sunAliasFinal with
      | some su => some (s6.celestialBodies.findIdx? (·.isSun), su)
      | none =>
        if s6.gameWon ∧ playerIdx?.isSome then
          match s6.celestialBodies.findIdx? (·.isPlayer) with
          | some pi =>
            match s6.celestialBodies[pi]? with
            | some pl => some (some pi, pl)
            | none => none
          | none => none
        else none
    let s7 :=
      match effCenter? with
      | none => s6
      | some (centerIdx?, effCenter) =>
        let proxIdx? := s6.celestialBodies.findIdx? (·.isPlayer)
        let proxPlayer? := proxIdx?.bind fun i => s6.celestialBodies[i]?
        let maxDistSq : ℚ :=
          match proxPlayer? with
          | some pp =>
            let d := pp.radius ctx s6.sunCurrentGameMass * (5/4) * TRAIL_PROXIMITY_FACTOR
            d * d
          | none => -1
        { s6 with celestialBodies := (mapWithIndex
            (orbitPhaseBody ctx dt s6 centerIdx? effCenter proxIdx? proxPlayer? maxDistSq)
            0 s6.celestialBodies) }
    -- line 167: camera follows the player alias of line 40
    let s8 :=
      if playerIdx?.isSome then
        match s7.celestialBodies.find? (·.isPlayer) with
        | some pl => { s7 with cameraX := pl.x, cameraY := pl.y }
        | none => s7
      else s7
    -- lines 170-172: warning intensity smoothing
    let tw := calculateWarningIntensity s8
    let s9 := { s8 with currentWarningIntensity :=
      (max 0 (min 1 (s8.currentWarningIntensity + (tw - s8.currentWarningIntensity) * 5 * dt))) }
    decayEjectionMultiplier now (updateOrbitHistory ctx s9)

/-- `updatePhysics(dt)` (`physics.js`): `gameDt = dt * currentGameSpeed`
(line 24) drives gravity and integration, while `checkCollisions` receives
the *raw* `dt` (line 119); `checkSunAbsorption` also receives the raw `dt`
and scales its transfer internally. -/
def updatePhysics (ctx : MathCtx) (env : Env) (now : ℤ) (rnd : ℕ) (dt : ℚ)
    (s : SimState) : SimState :=
  let gameDt := dt * s.currentGameSpeed
  let s4b := tickBeforeCollisions ctx env now gameDt s
  let sunIdx? := (s.celestialBodies.filter (cleanupKeep now)).findIdx? (·.isSun)
  let playerIdx? := (s.celestialBodies.filter (cleanupKeep now)).findIdx? (·.isPlayer)
  let s5 := checkCollisions ctx now dt s4b
  tickAfterCollisions ctx env now rnd dt sunIdx? playerIdx? s5

/-! ## Concrete fixtures for counterexamples and witnesses -/

/-- A math context whose calls all return `0`; fidelity of the values
actually used is asserted explicitly in the theorems that use it. -/
def ctxZero : MathCtx :=
  ⟨fun _ => 0, fun _ => 0, fun _ _ => 0, fun _ => 0, fun _ => 0, fun _ => 0⟩

/-- Body-record builder for concrete test states (fields that the claims
do not constrain are zeroed). -/
def testBody (x y vx vy m rad : ℚ) (pl su sp gc : Bool) (ct : ℤ) : Body :=
  { x := x, y := y, vx := vx, vy := vy, massRaw := m, radiusRaw := rad
    isPlayer := pl, isSun := su, isSpark := sp, isGravitationalCenter := gc
    creationTime := ct, angle := 0, orbitA := some 0, orbitB := some 0
    orbitE := 0, orbitPeriapsisAngle := 0, orbitCollidesCenter := false
    trailOpacity := 0 }

/-- A neutral global state for concrete test scenarios. -/
def baseState : SimState :=
  { celestialBodies := []
    gravityBlendFactor := 0, sunAbsorptionProgress := 0
    gameWon := false, playerIsGravitationalCenter := false
    sunCurrentGameMass := SUN_GAME_MASS
    playerNeedsReset := false, collisionDetectedThisFrame := false
    currentGameSpeed := 1, currentEjectionMultiplier := 1
    lastClickTime := 0, lastEjectionDecayTime := 0
    currentWarningIntensity := 0
    cameraX := 0, cameraY := 0, cameraScale := 1, orbitHistory := [] }

/-- C6 scenario: two overlapping ordinary bodies of mass 100 and 10,
created long ago (non-immune at `now = 1000`). -/
def stateC6 : SimState :=
  { baseState with celestialBodies :=
      [testBody 0 0 0 0 100 1 false false false false 0,
       testBody 0 0 0 0 10 1 false false false false 0] }

/-- The big/small pair of the C6 scenario as `checkCollisions` orders it. -/
def bigC6 : Body := testBody 0 0 0 0 100 1 false false false false 0
def smallC6 : Body := testBody 0 0 0 0 10 1 false false false false 0

/-- C2 counterexample state: half the sun's game mass already absorbed
(`sunAbsorptionProgress = 1/2` matches `sunCurrentGameMass = SUN_GAME_MASS/2`),
but `gravityBlendFactor` has decayed to `0`; the player (mass ratio `1/2`,
eligible) sits exactly on the sun. -/
def stateC2 : SimState :=
  { baseState with
    celestialBodies :=
      [testBody 0 0 0 0 (SUN_GAME_MASS / 2) 30 true false false false 0,
       testBody 0 0 0 0 0 1 false true false true 0]
    sunCurrentGameMass := SUN_GAME_MASS / 2
    sunAbsorptionProgress := 1 / 2
    gravityBlendFactor := 0
    currentGameSpeed := 1 / 10 }

/-- The player of the C9 scenario: barely above the minimum-mass floor
(`MIN_PLAYER_MASS + 1e-10`). -/
def playerC9 : Body :=
  testBody 0 0 0 0 (MIN_PLAYER_MASS + 1/10000000000) 3 true false false false 0

/-- C9 counterexample state: a player barely above the minimum-mass floor,
with a previous click 100 ms ago (within the quick-click threshold) and
combo multiplier 1. -/
def stateC9 : SimState :=
  { baseState with
    celestialBodies := [playerC9]
    lastClickTime := 1000 }

/-- Environment input for concrete ejection scenarios. -/
def envC9 : Env := ⟨800, 600, 0, 0⟩

/-- The player of the C7 witness scenario, at full initial mass. -/
def playerC7 : Body := testBody 0 0 0 0 PLAYER_INITIAL_MASS 30 true false false false 0

/-- C7 witness state: a lone player at full initial mass. -/
def stateC7 : SimState := { baseState with celestialBodies := [playerC7] }

/-- C8 scenario radius: `r` is chosen so that `r * r + 1e-9` is a perfect
rational square, making the square root exactly representable. -/
def rC8 : ℚ := 15999999999/8000000000

/-- C8 scenario: the exact square root of `rC8 * rC8 + 1e-9`. -/
def rtC8 : ℚ := 16000000001/8000000000

/-- Math context for the C8 scenario: `sqrt` returns the exact root of the
single argument the solver feeds it. -/
def ctxC8 : MathCtx :=
  ⟨fun _ => rtC8, fun _ => 0, fun _ _ => 0, fun _ => 0, fun _ => 0, fun _ => 0⟩

/-- C8 central body at the origin, with mass chosen so that the pair's
gravitational parameter `G * (center.mass + body.mass)` equals `rC8`. -/
def centerC8 : Body := testBody 0 0 0 0 (rC8 / G - 1) 1 false false false false 0

/-- C8 orbiting body at distance `rC8` with tangential speed `1 = sqrt(mu/r)`. -/
def bodyC8 : Body := testBody rC8 0 0 1 1 1 false false false false 0

/-! ## Registry role invariant (C3 / C5) -/

/-- Role quadruple of a body: the registry fields the role invariants
constrain. -/
def rolesOf (b : Body) : Bool × Bool × Bool × Bool :=
  (b.isPlayer, b.isSun, b.isSpark, b.isGravitationalCenter)

/-- Per-body role coherence: players and suns are never sparks, and no body
is both player and sun. -/
def bodyRolesOK (b : Body) : Bool :=
  (!b.isPlayer || !b.isSpark) && (!b.isSun || !b.isSpark) && (!b.isPlayer || !b.isSun)

/-- Registry role invariant, over the winning flag and the body list:
exactly one gravitational center, at most one sun, coherent roles, the
center is the sun before the win and the player after it, and no sun
remains after the win. -/
def InvL (won : Bool) (bodies : List Body) : Prop :=
  bodies.countP (·.isGravitationalCenter) = 1 ∧
  bodies.countP (·.isSun) ≤ 1 ∧
  (∀ b ∈ bodies, bodyRolesOK b = true) ∧
  (∀ b ∈ bodies, b.isGravitationalCenter = true →
    (won = true → b.isPlayer = true) ∧ (won = false → b.isSun = true)) ∧
  (won = true → ∀ b ∈ bodies, b.isSun = false)

/-- Full state invariant: the registry role invariant plus the pinned
gravity blend factor after the win. -/
def Inv (s : SimState) : Prop :=
  InvL s.gameWon s.celestialBodies ∧ (s.gameWon = true → s.gravityBlendFactor = 1)

/-- The terminal-state properties claimed for `gameWon = true` states. -/
def WinProps (s : SimState) : Prop :=
  (∀ b ∈ s.celestialBodies, b.isSun = false) ∧
  s.gravityBlendFactor = 1 ∧
  s.celestialBodies.countP (·.isGravitationalCenter) = 1 ∧
  (∀ b ∈ s.celestialBodies, b.isGravitationalCenter = true → b.isPlayer = true)

/-- C3/C5 scenario sun: the gravitational center of a pre-win state. -/
def sunC3 : Body := testBody 0 0 0 0 SUN_GAME_MASS 120 false true false true 0

/-- C3/C5 scenario player. -/
def playerC3 : Body := testBody 100 0 0 0 PLAYER_INITIAL_MASS 30 true false false false 0

/-- C3/C5 scenario state: sun-centered pre-win registry. -/
def stateC3w : SimState := { baseState with celestialBodies := [sunC3, playerC3] }

/-! # Theorems -/

/-! ## Projection lemmas for the entity operations -/

@[simp] lemma setMass_massRaw (ctx : MathCtx) (scgm : ℚ) (b : Body) (m : ℚ) :
    (b.setMass ctx scgm m).massRaw = max 0 m := rfl

@[simp] lemma setMass_isPlayer (ctx : MathCtx) (scgm : ℚ) (b : Body) (m : ℚ) :
    (b.setMass ctx scgm m).isPlayer = b.isPlayer := rfl

@[simp] lemma setMass_isSun (ctx : MathCtx) (scgm : ℚ) (b : Body) (m : ℚ) :
    (b.setMass ctx scgm m).isSun = b.isSun := rfl

@[simp] lemma setMass_isSpark (ctx : MathCtx) (scgm : ℚ) (b : Body) (m : ℚ) :
    (b.setMass ctx scgm m).isSpark = b.isSpark := rfl

@[simp] lemma setMass_isGC (ctx : MathCtx) (scgm : ℚ) (b : Body) (m : ℚ) :
    (b.setMass ctx scgm m).isGravitationalCenter = b.isGravitationalCenter := rfl

@[simp] lemma setMass_creationTime (ctx : MathCtx) (scgm : ℚ) (b : Body) (m : ℚ) :
    (b.setMass ctx scgm m).creationTime = b.creationTime := rfl

@[simp] lemma mkBody_isGC (ctx : MathCtx) (scgm x y vx vy mass : ℚ)
    (pl su sp : Bool) (now : ℤ) :
    (mkBody ctx scgm x y vx vy mass pl su sp now).isGravitationalCenter = su := rfl

@[simp] lemma mkBody_isPlayer (ctx : MathCtx) (scgm x y vx vy mass : ℚ)
    (pl su sp : Bool) (now : ℤ) :
    (mkBody ctx scgm x y vx vy mass pl su sp now).isPlayer = pl := rfl

@[simp] lemma mkBody_isSun (ctx : MathCtx) (scgm x y vx vy mass : ℚ)
    (pl su sp : Bool) (now : ℤ) :
    (mkBody ctx scgm x y vx vy mass pl su sp now).isSun = su := rfl

@[simp] lemma mkBody_isSpark (ctx : MathCtx) (scgm x y vx vy mass : ℚ)
    (pl su sp : Bool) (now : ℤ) :
    (mkBody ctx scgm x y vx vy mass pl su sp now).isSpark = sp := rfl

/-! ## C1 — mass conservation of a collision pair resolution -/

/-- C1: for every pair resolution performed by `checkCollisions` (big is
the heavier body, both masses non-negative, `dt ≥ 0`), the combined mass
after the transfer equals the combined mass before it, the transfer lies in
`[0, small.mass]` (so the mass setter's clamp discards nothing), and for a
spark (full transfer) the small body ends at exactly zero mass while the
registry total over the remaining bodies still accounts for the transferred
amount. -/
theorem claim_C1_pair_mass_conservation (ctx : MathCtx) (scgm dt : ℚ)
    (big small : Body)
    (h0 : 0 ≤ small.massRaw) (hbs : small.massRaw ≤ big.massRaw) (hdt : 0 ≤ dt) :
    (resolvePairCore ctx scgm dt big small).1.massRaw
        + (resolvePairCore ctx scgm dt big small).2.1.massRaw
      = big.massRaw + small.massRaw
    ∧ 0 ≤ (resolvePairCore ctx scgm dt big small).2.2
    ∧ (resolvePairCore ctx scgm dt big small).2.2 ≤ small.massRaw
    ∧ (small.isSpark = true →
        (resolvePairCore ctx scgm dt big small).2.1.massRaw = 0 ∧
        ∀ rest : List Body,
          (((resolvePairCore ctx scgm dt big small).1 :: rest).map (·.massRaw)).sum
            = ((big :: small :: rest).map (·.massRaw)).sum) := by
  have ht0 : 0 ≤ transferAmount small dt := le_max_left 0 _
  have hts : transferAmount small dt ≤ small.massRaw := by
    unfold transferAmount
    by_cases hsp : small.isSpark = true
    · simp only [hsp, if_true]
      exact max_le h0 le_rfl
    · simp only [hsp, if_false]
      exact max_le h0 (min_le_left _ _)
  have e1 : (resolvePairCore ctx scgm dt big small).1.massRaw
      = max 0 (big.massRaw + transferAmount small dt) := by
    simp only [resolvePairCore]
    split_ifs <;> rfl
  have e2 : (resolvePairCore ctx scgm dt big small).2.1.massRaw
      = max 0 (small.massRaw - transferAmount small dt) := by
    simp [resolvePairCore]
  have e3 : (resolvePairCore ctx scgm dt big small).2.2 = transferAmount small dt := by
    simp [resolvePairCore]
  have hbig : max 0 (big.massRaw + transferAmount small dt)
      = big.massRaw + transferAmount small dt :=
    max_eq_right (by linarith)
  have hsmall : max 0 (small.massRaw - transferAmount small dt)
      = small.massRaw - transferAmount small dt :=
    max_eq_right (by linarith)
  refine ⟨by rw [e1, e2, hbig, hsmall]; try ring, e3 ▸ ht0, e3 ▸ hts, fun hsp => ?_⟩
  have htval : transferAmount small dt = small.massRaw := by
    unfold transferAmount
    simp only [hsp, if_true]
    exact max_eq_right h0
  constructor
  · rw [e2, htval]
    simp
  · intro rest
    have hbig' : max 0 (big.massRaw + small.massRaw) = big.massRaw + small.massRaw := by
      rw [← htval]
      exact hbig
    simp only [List.map_cons, List.sum_cons, e1, htval, hbig']
    ring

/-- Witness for C1 at the concrete masses 100 and 10 of the C6 scenario. -/
theorem claim_C1_witness :
    0 ≤ smallC6.massRaw ∧ smallC6.massRaw ≤ bigC6.massRaw ∧ (0:ℚ) ≤ 1/2 ∧
    (resolvePairCore ctxZero SUN_GAME_MASS (1/2) bigC6 smallC6).1.massRaw
        + (resolvePairCore ctxZero SUN_GAME_MASS (1/2) bigC6 smallC6).2.1.massRaw
      = bigC6.massRaw + smallC6.massRaw := by
  have h0 : 0 ≤ smallC6.massRaw := by norm_num [smallC6, testBody]
  have hbs : smallC6.massRaw ≤ bigC6.massRaw := by norm_num [smallC6, bigC6, testBody]
  have hdt : (0:ℚ) ≤ 1/2 := by norm_num
  exact ⟨h0, hbs, hdt,
    (claim_C1_pair_mass_conservation ctxZero SUN_GAME_MASS (1/2) bigC6 smallC6 h0 hbs hdt).1⟩

/-! ## List bridging lemmas (`find` aliases vs. functional updates) -/

lemma findIdx?_getElem? {α : Type} {l : List α} {p : α → Bool} {i : ℕ}
    (h : l.findIdx? p = some i) : ∃ a, l[i]? = some a ∧ p a = true := by
  obtain ⟨hlen, hp, -⟩ := List.findIdx?_eq_some_iff_getElem.mp h
  exact ⟨l[i], by simp [List.getElem?_eq_getElem hlen], hp⟩

lemma find?_set_of_findIdx? {α : Type} {p : α → Bool} :
    ∀ {l : List α} {i : ℕ} {b : α}, l.findIdx? p = some i → p b = true →
      (l.set i b).find? p = some b := by
  intro l
  induction l with
  | nil => intro i b h _; simp at h
  | cons x xs ih =>
    intro i b h hb
    rw [List.findIdx?_cons] at h
    by_cases hx : p x
    · simp only [hx, if_true, Option.some.injEq] at h
      subst h
      simpa using List.find?_cons_of_pos _ hb
    · simp only [hx, Bool.false_eq_true, if_false, List.findIdx?_start_succ,
        Option.map_eq_some'] at h
      obtain ⟨i', hi', rfl⟩ := h
      have : (x :: xs.set i' b).find? p = some b := by
        rw [List.find?_cons_of_neg _ hx]
        exact ih hi' hb
      simpa using this

lemma find?_of_findIdx?_get {α : Type} {p : α → Bool} :
    ∀ {l : List α} {i : ℕ} {a : α}, l.findIdx? p = some i → l[i]? = some a →
      l.find? p = some a := by
  intro l
  induction l with
  | nil => intro i a h _; simp at h
  | cons x xs ih =>
    intro i a h hget
    rw [List.findIdx?_cons] at h
    by_cases hx : p x
    · simp only [hx, if_true, Option.some.injEq] at h
      subst h
      simp only [List.getElem?_cons_zero, Option.some.injEq] at hget
      subst hget
      exact List.find?_cons_of_pos _ hx
    · simp only [hx, Bool.false_eq_true, if_false, List.findIdx?_start_succ,
        Option.map_eq_some'] at h
      obtain ⟨i', hi', rfl⟩ := h
      rw [List.getElem?_cons_succ] at hget
      rw [List.find?_cons_of_neg _ hx]
      exact ih hi' hget

lemma find?_append_left {α : Type} {p : α → Bool} {l l' : List α} {a : α}
    (h : l.find? p = some a) : (l ++ l').find? p = some a := by
  simp [List.find?_append, h]

/-! ## C7 — ejection never takes the player below the mass floor -/

/-- C7: if a player exists with mass at least `MIN_PLAYER_MASS`, then after
`ejectMass` the player's mass is still at least `MIN_PLAYER_MASS` (the
ejected amount is clamped down to `mass - MIN_PLAYER_MASS`, or the ejection
aborted entirely). -/
theorem claim_C7_ejection_mass_floor (ctx : MathCtx) (env : Env) (now : ℤ) (rnd : ℕ)
    (s : SimState) (pIdx : ℕ) (player : Body)
    (hIdx : s.celestialBodies.findIdx? (·.isPlayer) = some pIdx)
    (hGet : s.celestialBodies[pIdx]? = some player)
    (hm : MIN_PLAYER_MASS ≤ player.massRaw) :
    ∃ q, (ejectMass ctx env now rnd s).celestialBodies.find? (·.isPlayer) = some q ∧
      MIN_PLAYER_MASS ≤ q.massRaw := by
  have hpl : player.isPlayer = true := by
    obtain ⟨a, hga, hpa⟩ := findIdx?_getElem? hIdx
    rw [hGet] at hga
    cases hga
    exact hpa
  unfold ejectMass
  simp only [hIdx, hGet]
  by_cases hguard : player.massRaw ≤ MIN_PLAYER_MASS
  · rw [if_pos hguard]
    exact ⟨player, find?_of_findIdx?_get hIdx hGet, hm⟩
  · rw [if_neg hguard]
    by_cases habort : player.massRaw -
        min (player.massRaw * BASE_EJECTION_MASS_PERCENT * comboMultiplier now s)
          (player.massRaw * MAX_EJECTION_PERCENTAGE) < MIN_PLAYER_MASS ∧
        player.massRaw - MIN_PLAYER_MASS ≤ 1/1000000000
    · rw [if_pos habort]
      exact ⟨player, find?_of_findIdx?_get hIdx hGet, hm⟩
    · rw [if_neg habort]
      -- the spawned bodies are appended after the player slot, so `find?`
      -- still returns the (updated) player
      set ejectedMass :=
        if player.massRaw -
            min (player.massRaw * BASE_EJECTION_MASS_PERCENT * comboMultiplier now s)
              (player.massRaw * MAX_EJECTION_PERCENTAGE) < MIN_PLAYER_MASS then
          player.massRaw - MIN_PLAYER_MASS
        else
          min (player.massRaw * BASE_EJECTION_MASS_PERCENT * comboMultiplier now s)
            (player.massRaw * MAX_EJECTION_PERCENTAGE) with hEj
      have hejle : MIN_PLAYER_MASS ≤ player.massRaw - ejectedMass := by
        rw [hEj]
        split_ifs with hfl
        · linarith
        · linarith [not_lt.mp hfl]
      set playerA := player.setMass ctx s.sunCurrentGameMass (player.massRaw - ejectedMass)
        with hPA
      have hApl : playerA.isPlayer = true := by rw [hPA]; simpa using hpl
      have hAm : MIN_PLAYER_MASS ≤ playerA.massRaw := by
        rw [hPA, setMass_massRaw]
        exact le_trans hejle (le_max_right 0 _)
      have key : ∀ pb : Body, pb.isPlayer = true → MIN_PLAYER_MASS ≤ pb.massRaw →
          ∀ rest1 rest2 : List Body,
          ∃ q, ((s.celestialBodies.set pIdx pb) ++ rest1 ++ rest2).find? (·.isPlayer)
              = some q ∧ MIN_PLAYER_MASS ≤ q.massRaw :=
        fun pb hpb hmb _ _ =>
          ⟨pb, find?_append_left (find?_append_left (find?_set_of_findIdx? hIdx hpb)), hmb⟩
      apply key
      · split_ifs <;> simpa using hApl
      · split_ifs <;> simpa using hAm

/-- Witness for C7 at a lone player of full initial mass. -/
theorem claim_C7_witness :
    stateC7.celestialBodies.findIdx? (·.isPlayer) = some 0 ∧
    stateC7.celestialBodies[0]? = some playerC7 ∧
    MIN_PLAYER_MASS ≤ playerC7.massRaw ∧
    ∃ q, (ejectMass ctxZero envC9 500 0 stateC7).celestialBodies.find? (·.isPlayer) = some q ∧
      MIN_PLAYER_MASS ≤ q.massRaw := by
  have h1 : stateC7.celestialBodies.findIdx? (·.isPlayer) = some 0 := by
    norm_num [stateC7, baseState, playerC7, testBody]
  have h2 : stateC7.celestialBodies[0]? = some playerC7 := by
    norm_num [stateC7, baseState]
  have h3 : MIN_PLAYER_MASS ≤ playerC7.massRaw := by
    norm_num [playerC7, testBody, MIN_PLAYER_MASS, PLAYER_INITIAL_MASS,
      calculateMassFromRadius, piQ, DENSITY, PLAYER_RADIUS, max_def]
  exact ⟨h1, h2, h3, claim_C7_ejection_mass_floor ctxZero envC9 500 0 stateC7 0 playerC7 h1 h2 h3⟩

/-! ## C10 — collisions use the raw dt, not the game-speed-scaled dt -/

/-- C10: (1) `checkCollisions` is invariant under `currentGameSpeed` — two
states identical except for the speed produce identical collision results
(bodies, flags), so per-pair transfers are independent of the game-speed
multiplier; (2) for a non-spark pair the per-tick transfer is
`min(small.mass, small.mass · MASS_TRANSFER_PERCENT_PER_SEC · dt)` in the
raw `dt`; (3) `updatePhysics` wires the *raw* `dt` into `checkCollisions`
while the pre-collision pipeline (gravity, integration) receives
`dt · currentGameSpeed`. -/
theorem claim_C10_collision_speed_independence :
    (∀ (ctx : MathCtx) (now : ℤ) (dt : ℚ) (s : SimState) (g : ℚ),
      checkCollisions ctx now dt { s with currentGameSpeed := g }
        = { checkCollisions ctx now dt s with currentGameSpeed := g }) ∧
    (∀ (small : Body) (dt : ℚ), small.isSpark = false → 0 ≤ small.massRaw → 0 ≤ dt →
      transferAmount small dt
        = min small.massRaw (small.massRaw * MASS_TRANSFER_PERCENT_PER_SEC * dt)) ∧
    (∀ (ctx : MathCtx) (env : Env) (now : ℤ) (rnd : ℕ) (dt : ℚ) (s : SimState),
      updatePhysics ctx env now rnd dt s
        = tickAfterCollisions ctx env now rnd dt
            ((s.celestialBodies.filter (cleanupKeep now)).findIdx? (·.isSun))
            ((s.celestialBodies.filter (cleanupKeep now)).findIdx? (·.isPlayer))
            (checkCollisions ctx now dt
              (tickBeforeCollisions ctx env now (dt * s.currentGameSpeed) s))) := by
  refine ⟨fun ctx now dt s g => rfl, fun small dt hsp h0 hdt => ?_, fun _ _ _ _ _ _ => rfl⟩
  unfold transferAmount
  simp only [hsp, Bool.false_eq_true, if_false]
  refine max_eq_right (le_min h0 ?_)
  have h4 : (0:ℚ) ≤ MASS_TRANSFER_PERCENT_PER_SEC := by norm_num [MASS_TRANSFER_PERCENT_PER_SEC]
  exact mul_nonneg (mul_nonneg h0 h4) hdt

/-- Witness for C10 at the C6 pair and a concrete speed change. -/
theorem claim_C10_witness :
    smallC6.isSpark = false ∧ 0 ≤ smallC6.massRaw ∧ ((0:ℚ) ≤ 1/2) ∧
    transferAmount smallC6 (1/2)
      = min smallC6.massRaw (smallC6.massRaw * MASS_TRANSFER_PERCENT_PER_SEC * (1/2)) ∧
    checkCollisions ctxZero 1000 (1/2) { stateC6 with currentGameSpeed := 7 }
      = { checkCollisions ctxZero 1000 (1/2) stateC6 with currentGameSpeed := 7 } := by
  have hsp : smallC6.isSpark = false := by norm_num [smallC6, testBody]
  have h0 : 0 ≤ smallC6.massRaw := by norm_num [smallC6, testBody]
  have hdt : (0:ℚ) ≤ 1/2 := by norm_num
  exact ⟨hsp, h0, hdt,
    claim_C10_collision_speed_independence.2.1 smallC6 (1/2) hsp h0 hdt,
    claim_C10_collision_speed_independence.1 ctxZero 1000 (1/2) stateC6 7⟩

/-! ## Numeric facts about the derived constants -/

lemma PLAYER_INITIAL_MASS_pos : 0 < PLAYER_INITIAL_MASS := by
  norm_num [PLAYER_INITIAL_MASS, calculateMassFromRadius, piQ, DENSITY, PLAYER_RADIUS, max_def]

lemma SUN_GAME_MASS_pos : 0 < SUN_GAME_MASS :=
  mul_pos PLAYER_INITIAL_MASS_pos (by norm_num)

lemma MIN_PLAYER_MASS_pos : 0 < MIN_PLAYER_MASS :=
  mul_pos PLAYER_INITIAL_MASS_pos (by norm_num)

lemma MIN_BODY_MASS_lt_MIN_PLAYER_MASS : MIN_BODY_MASS < MIN_PLAYER_MASS := by
  unfold MIN_BODY_MASS MIN_PLAYER_MASS
  nlinarith [PLAYER_INITIAL_MASS_pos]

lemma min_one_lipschitz {p q : ℚ} (h : p ≤ q) : min 1 q - min 1 p ≤ q - p := by
  rcases le_total q 1 with h2 | h2
  · rw [min_eq_right h2, min_eq_right (le_trans h h2)]
  · rw [min_eq_left h2]
    rcases le_total p 1 with h1 | h1
    · rw [min_eq_right h1]
      linarith
    · rw [min_eq_left h1]
      linarith

/-! ## C2 — gravity blend factor: range and per-tick change -/

/-- C2 counterexample: in `stateC2` half the sun's game mass has been
absorbed (`sunAbsorptionProgress = 1/2`) but the blend factor has decayed
to `0`; one absorbing tick of `dt = 1e-6 s` snaps `gravityBlendFactor` up
by more than `1/4`, although that tick's absorption-progress increment is
below `1e-6` and the decay rates allow at most `0.5·dt = 5e-7` — so the
blend factor's change is *not* bounded by the applicable rate times `dt`.
(The first conjuncts certify the context is faithful at the only square
root used: the player sits exactly on the sun, `dist² = 0`.) -/
theorem claim_C2_counterexample :
    (ctxZero.sqrt 0 * ctxZero.sqrt 0 = 0 ∧ 0 ≤ ctxZero.sqrt 0) ∧
    stateC2.gameWon = false ∧
    (checkSunAbsorption ctxZero (1/1000000) stateC2).1.gravityBlendFactor
        - stateC2.gravityBlendFactor > 1/4 ∧
    (checkSunAbsorption ctxZero (1/1000000) stateC2).1.sunAbsorptionProgress
        - stateC2.sunAbsorptionProgress < 1/1000000 ∧
    ((1/2 : ℚ) * (1/1000000) < 1/1000000 ∧ (3/10 : ℚ) * (1/1000000) < 1/1000000) := by
  refine ⟨⟨by norm_num [ctxZero], by norm_num [ctxZero]⟩, by norm_num [stateC2, baseState],
    ?_, ?_, by norm_num, by norm_num⟩ <;>
  norm_num [checkSunAbsorption, stateC2, baseState, testBody, ctxZero, Body.radius,
    getSunDisplayRadius, SUN_GAME_MASS, PLAYER_INITIAL_MASS, calculateMassFromRadius,
    piQ, DENSITY, PLAYER_RADIUS, absorptionStartRatio, SUN_ABSORPTION_RANGE_MULTIPLIER,
    SUN_ABSORPTION_RATE, SUN_DISPLAY_RADIUS, min_def, max_def,
    List.getElem?_cons_zero, List.getElem?_cons_succ, List.getElem_cons_zero,
    List.getElem_cons_succ, Body.setMass, bodyCalcRadius, calculateRadiusFromMass,
    List.getElem_cons, List.getElem?_eq_getElem]

/-- Branch characterization of `checkSunAbsorption`'s effect on
`gravityBlendFactor` and `sunCurrentGameMass`: unchanged (early returns),
one of the two decays, an absorbing update to `min(1, updated progress)`,
or the win transition. -/
lemma checkSunAbsorption_cases (ctx : MathCtx) (dt : ℚ) (s : SimState)
    (hs0 : 0 ≤ s.sunCurrentGameMass) :
    ((checkSunAbsorption ctx dt s).1.gravityBlendFactor = s.gravityBlendFactor ∧
      (checkSunAbsorption ctx dt s).1.sunCurrentGameMass = s.sunCurrentGameMass) ∨
    ((checkSunAbsorption ctx dt s).1.gravityBlendFactor
        = max 0 (s.gravityBlendFactor - (1/2) * dt) ∧
      (checkSunAbsorption ctx dt s).1.sunCurrentGameMass = s.sunCurrentGameMass) ∨
    ((checkSunAbsorption ctx dt s).1.gravityBlendFactor
        = max 0 (s.gravityBlendFactor - (3/10) * dt) ∧
      (checkSunAbsorption ctx dt s).1.sunCurrentGameMass = s.sunCurrentGameMass) ∨
    (∃ t : ℚ, 0 < t ∧ t ≤ s.sunCurrentGameMass ∧
      (checkSunAbsorption ctx dt s).1.gravityBlendFactor
        = min 1 (1 - (s.sunCurrentGameMass - t) / SUN_GAME_MASS) ∧
      (checkSunAbsorption ctx dt s).1.sunCurrentGameMass = s.sunCurrentGameMass - t) ∨
    ((checkSunAbsorption ctx dt s).1.gravityBlendFactor = 1 ∧
      (checkSunAbsorption ctx dt s).1.sunCurrentGameMass = 0) := by
  unfold checkSunAbsorption
  by_cases hw : s.gameWon
  · simp [hw]
  simp only [hw, Bool.false_eq_true, if_false]
  split
  · split
    · split_ifs
      all_goals
        first
        | exact Or.inl ⟨rfl, rfl⟩
        | exact Or.inr (Or.inl ⟨rfl, rfl⟩)
        | exact Or.inr (Or.inr (Or.inl ⟨rfl, rfl⟩))
        | exact Or.inr (Or.inr (Or.inr (Or.inr ⟨rfl, rfl⟩)))
        | (rename_i hnt hmom hwin
           exact Or.inr (Or.inr (Or.inr (Or.inl
             ⟨_, lt_of_not_ge hnt, max_le hs0 (min_le_right _ _), rfl, rfl⟩))))
    · exact Or.inl ⟨rfl, rfl⟩
  · exact Or.inl ⟨rfl, rfl⟩

/-- C2 amended: between simulation operations `gravityBlendFactor` stays in
`[0,1]`; within one `checkSunAbsorption` call it decreases by at most
`(1/2)·dt` (given the pre-state is consistent: the blend factor does not
exceed `min(1, progress)`), any increase sets it to exactly
`min(1, updated progress)` (pinned to `1` on the win transition), and the
increase is bounded by that tick's absorption-progress increment exactly
when the pre-tick blend factor already equals `min(1, progress)` — after a
decay it can snap back up by the accumulated gap (see the counterexample). -/
theorem claim_C2_blend_range_and_change (ctx : MathCtx) (dt : ℚ) (s : SimState)
    (hdt : 0 ≤ dt) (h0 : 0 ≤ s.gravityBlendFactor) (h1 : s.gravityBlendFactor ≤ 1)
    (hs0 : 0 ≤ s.sunCurrentGameMass) (hs1 : s.sunCurrentGameMass ≤ SUN_GAME_MASS) :
    (0 ≤ (checkSunAbsorption ctx dt s).1.gravityBlendFactor ∧
      (checkSunAbsorption ctx dt s).1.gravityBlendFactor ≤ 1) ∧
    (s.gravityBlendFactor ≤ min 1 (1 - s.sunCurrentGameMass / SUN_GAME_MASS) →
      s.gravityBlendFactor - (1/2) * dt ≤ (checkSunAbsorption ctx dt s).1.gravityBlendFactor) ∧
    ((checkSunAbsorption ctx dt s).1.gravityBlendFactor ≤ s.gravityBlendFactor ∨
      (checkSunAbsorption ctx dt s).1.gravityBlendFactor
        = min 1 (1 - (checkSunAbsorption ctx dt s).1.sunCurrentGameMass / SUN_GAME_MASS)) ∧
    (s.gravityBlendFactor ≤ min 1 (1 - s.sunCurrentGameMass / SUN_GAME_MASS) →
      (checkSunAbsorption ctx dt s).1.gravityBlendFactor
        ≤ min 1 (1 - (checkSunAbsorption ctx dt s).1.sunCurrentGameMass / SUN_GAME_MASS)) ∧
    (s.gravityBlendFactor = min 1 (1 - s.sunCurrentGameMass / SUN_GAME_MASS) →
      (checkSunAbsorption ctx dt s).1.gravityBlendFactor - s.gravityBlendFactor
        ≤ (1 - (checkSunAbsorption ctx dt s).1.sunCurrentGameMass / SUN_GAME_MASS)
          - (1 - s.sunCurrentGameMass / SUN_GAME_MASS)) := by
  have hSGM := SUN_GAME_MASS_pos
  have hp0 : 0 ≤ 1 - s.sunCurrentGameMass / SUN_GAME_MASS := by
    have : s.sunCurrentGameMass / SUN_GAME_MASS ≤ 1 := by
      rw [div_le_one hSGM]
      exact hs1
    linarith
  have hp1 : 1 - s.sunCurrentGameMass / SUN_GAME_MASS ≤ 1 := by
    have : 0 ≤ s.sunCurrentGameMass / SUN_GAME_MASS := div_nonneg hs0 hSGM.le
    linarith
  rcases checkSunAbsorption_cases ctx dt s hs0 with
    ⟨e1, e2⟩ | ⟨e1, e2⟩ | ⟨e1, e2⟩ | ⟨t, ht0, hts, e1, e2⟩ | ⟨e1, e2⟩
  · rw [e1, e2]
    exact ⟨⟨h0, h1⟩, fun _ => by linarith, Or.inl le_rfl, fun hc => hc, fun _ => by linarith⟩
  · rw [e1, e2]
    refine ⟨⟨le_max_left _ _, max_le (by linarith) (by linarith)⟩,
      fun _ => le_max_right _ _, Or.inl (max_le h0 (by linarith)),
      fun hc => le_trans (max_le h0 (by linarith)) hc, fun he => ?_⟩
    have := max_le h0 (show s.gravityBlendFactor - (1/2) * dt ≤ s.gravityBlendFactor by linarith)
    linarith
  · rw [e1, e2]
    refine ⟨⟨le_max_left _ _, max_le (by linarith) (by linarith)⟩,
      fun _ => le_trans (by linarith) (le_max_right _ _), Or.inl (max_le h0 (by linarith)),
      fun hc => le_trans (max_le h0 (by linarith)) hc, fun he => ?_⟩
    have := max_le h0 (show s.gravityBlendFactor - (3/10) * dt ≤ s.gravityBlendFactor by linarith)
    linarith
  · -- absorbing: the blend factor is set to min(1, updated progress)
    have hq0 : 0 ≤ 1 - (s.sunCurrentGameMass - t) / SUN_GAME_MASS := by
      have : (s.sunCurrentGameMass - t) / SUN_GAME_MASS ≤ 1 := by
        rw [div_le_one hSGM]
        linarith
      linarith
    have hpp : 1 - s.sunCurrentGameMass / SUN_GAME_MASS
        ≤ 1 - (s.sunCurrentGameMass - t) / SUN_GAME_MASS := by
      have : (s.sunCurrentGameMass - t) / SUN_GAME_MASS ≤ s.sunCurrentGameMass / SUN_GAME_MASS :=
        (div_le_div_right hSGM).mpr (by linarith)
      linarith
    rw [e1, e2]
    refine ⟨⟨le_min (by norm_num) hq0, min_le_left _ _⟩, fun hc => ?_, Or.inr rfl,
      fun _ => le_rfl, fun he => ?_⟩
    · have hmm : min 1 (1 - s.sunCurrentGameMass / SUN_GAME_MASS)
          ≤ min 1 (1 - (s.sunCurrentGameMass - t) / SUN_GAME_MASS) :=
        min_le_min le_rfl hpp
      linarith
    · rw [he]
      exact min_one_lipschitz hpp
  · -- win transition: pinned to 1 with zero remaining game mass
    rw [e1, e2]
    have hz : (0:ℚ) / SUN_GAME_MASS = 0 := zero_div _
    refine ⟨⟨by norm_num, le_rfl⟩, fun _ => by linarith, Or.inr (by rw [hz]; norm_num),
      fun _ => by rw [hz]; norm_num, fun he => ?_⟩
    rw [min_eq_right hp1] at he
    rw [hz]
    linarith

/-- Witness for the C2 range/Lipschitz theorem at a concrete state. -/
theorem claim_C2_witness :
    ((0:ℚ) ≤ 1/1000000 ∧ 0 ≤ stateC2.gravityBlendFactor ∧ stateC2.gravityBlendFactor ≤ 1 ∧
      0 ≤ stateC2.sunCurrentGameMass ∧ stateC2.sunCurrentGameMass ≤ SUN_GAME_MASS) ∧
    (0 ≤ (checkSunAbsorption ctxZero (1/1000000) stateC2).1.gravityBlendFactor ∧
      (checkSunAbsorption ctxZero (1/1000000) stateC2).1.gravityBlendFactor ≤ 1) := by
  have hSGM := SUN_GAME_MASS_pos
  have h1 : (0:ℚ) ≤ 1/1000000 := by norm_num
  have h2 : (0:ℚ) ≤ stateC2.gravityBlendFactor := by norm_num [stateC2, baseState]
  have h3 : stateC2.gravityBlendFactor ≤ 1 := by norm_num [stateC2, baseState]
  have h4 : (0:ℚ) ≤ stateC2.sunCurrentGameMass := by
    show (0:ℚ) ≤ SUN_GAME_MASS / 2
    linarith
  have h5 : stateC2.sunCurrentGameMass ≤ SUN_GAME_MASS := by
    show SUN_GAME_MASS / 2 ≤ SUN_GAME_MASS
    linarith
  exact ⟨⟨h1, h2, h3, h4, h5⟩,
    (claim_C2_blend_range_and_change ctxZero (1/1000000) stateC2 h1 h2 h3 h4 h5).1⟩

/-! ## C6 — concrete collision scenario -/

/-- C6: two overlapping, non-immune, non-spark bodies of masses 100 and 10
with `MASS_TRANSFER_PERCENT_PER_SEC = 4` and `dt = 0.5 s`: the transfer is
`min(10, 10·4·0.5) = 10`, leaving masses 110 and 0, and `checkCollisions`
removes the small body from the registry in the same tick. -/
theorem claim_C6_concrete_scenario :
    transferAmount smallC6 (1/2) = 10 ∧
    (resolvePairCore ctxZero SUN_GAME_MASS (1/2) bigC6 smallC6).1.massRaw = 110 ∧
    (resolvePairCore ctxZero SUN_GAME_MASS (1/2) bigC6 smallC6).2.1.massRaw = 0 ∧
    (checkCollisions ctxZero 1000 (1/2) stateC6).celestialBodies.map (·.massRaw) = [110] ∧
    (checkCollisions ctxZero 1000 (1/2) stateC6).celestialBodies.length = 1 := by
  refine ⟨?_, ?_, ?_, ?_, ?_⟩ <;>
    norm_num [checkCollisions, stateC6, baseState, outerLoop, innerLoop, collidePair,
      pairExcluded, immuneFlag, bigC6, smallC6, testBody, Body.radius, resolvePairCore,
      transferAmount, Body.setMass, bodyCalcRadius, calculateRadiusFromMass,
      getSunDisplayRadius, ctxZero, MASS_TRANSFER_PERCENT_PER_SEC, MIN_PLAYER_MASS,
      MIN_BODY_MASS, PLAYER_INITIAL_MASS, calculateMassFromRadius, piQ, DENSITY,
      PLAYER_RADIUS, SUN_GAME_MASS, EJECTION_COLLISION_DELAY, min_def, max_def]

/-! ## C4 — gravity singularity: the epsilon floors only the direction -/

/-- C4 counterexample: with the body exactly at the source
(`dx = dy = 0`, so `dist = sqrt(0 + 1e-6) = 1/1000` — fidelity asserted by
the first conjunct) and the sun's full effective mass, the velocity update
of the gravity loop is *not* finite: `acc = G·M/distSq` divides by the raw
zero squared distance, and `∞ · 0` is NaN.  This refutes the claim that the
floored distance makes the update finite at exact coincidence. -/
theorem claim_C4_counterexample :
    ((1/1000 : ℚ) * (1/1000) = 0 * 0 + 0 * 0 + 1/1000000) ∧ ((0:ℚ) ≤ 1/1000) ∧
    (gravityKickJs (SUN_GRAVITATIONAL_MASS * (1 - 0)) 1 0 0 (1/1000) 0 0).1.isFinite = false ∧
    (gravityKickJs (SUN_GRAVITATIONAL_MASS * (1 - 0)) 1 0 0 (1/1000) 0 0).2.isFinite = false := by
  norm_num [gravityKickJs, JsNum.div, JsNum.mul, JsNum.add, JsNum.isFinite,
    SUN_GRAVITATIONAL_MASS, G]

/-- C4 amended: the floored direction divisor `dist = sqrt(distSq + 1e-6)`
is always positive (no singularity in the normalisation), and the velocity
update is finite whenever the body's position *differs* from the source's;
at exact coincidence the magnitude `G·M/distSq` divides by zero and the
update is not finite (see the counterexample). -/
theorem claim_C4_floored_direction (effMass gameDt dx dy dist vx vy : ℚ)
    (hd : dist * dist = dx * dx + dy * dy + 1/1000000) (hd0 : 0 ≤ dist) :
    0 < dist ∧
    (¬(dx = 0 ∧ dy = 0) →
      (gravityKickJs effMass gameDt dx dy dist vx vy).1.isFinite = true ∧
      (gravityKickJs effMass gameDt dx dy dist vx vy).2.isFinite = true) := by
  have hdd : 0 < dist * dist := by nlinarith [mul_self_nonneg dx, mul_self_nonneg dy]
  have hpos : 0 < dist := by
    rcases hd0.lt_or_eq with h | h
    · exact h
    · exfalso
      rw [← h] at hdd
      simp at hdd
  refine ⟨hpos, fun hne => ?_⟩
  have hds : dx * dx + dy * dy ≠ 0 := by
    intro h0
    have hx : dx = 0 := by nlinarith [mul_self_nonneg dx, mul_self_nonneg dy]
    have hy : dy = 0 := by nlinarith [mul_self_nonneg dx, mul_self_nonneg dy]
    exact hne ⟨hx, hy⟩
  unfold gravityKickJs
  rw [if_pos hpos]
  simp [JsNum.div, JsNum.mul, JsNum.add, JsNum.isFinite, hds, hpos.ne']

/-- Witness for the amended C4 at `dx = 3/4000`, `dy = 0`,
`dist = 1/800` (an exact rational square root of `dx² + 1e-6`). -/
theorem claim_C4_witness :
    ((1/800 : ℚ) * (1/800) = (3/4000) * (3/4000) + 0 * 0 + 1/1000000) ∧
    ((0:ℚ) ≤ 1/800) ∧
    (0 < (1/800 : ℚ) ∧
      (¬((3/4000 : ℚ) = 0 ∧ (0:ℚ) = 0) →
        (gravityKickJs 1 1 (3/4000) 0 (1/800) 5 7).1.isFinite = true ∧
        (gravityKickJs 1 1 (3/4000) 0 (1/800) 5 7).2.isFinite = true)) := by
  have hd : (1/800 : ℚ) * (1/800) = (3/4000) * (3/4000) + 0 * 0 + 1/1000000 := by norm_num
  have hd0 : (0:ℚ) ≤ 1/800 := by norm_num
  exact ⟨hd, hd0, claim_C4_floored_direction 1 1 (3/4000) 0 (1/800) 5 7 hd hd0⟩

/-! ## C9 — ejection abort is not side-effect free -/

/-- C9 counterexample: with the player barely above the minimum-mass floor
and two quick clicks, the ejection aborts (the registry and `lastClickTime`
are unchanged, no body spawned) yet `currentEjectionMultiplier` has changed
from 1 to 3: the combo update runs *before* the abort check, refuting the
claim that the combo state is unchanged on abort. -/
theorem claim_C9_counterexample :
    stateC9.currentEjectionMultiplier = 1 ∧
    (ejectMass ctxZero envC9 1100 0 stateC9).currentEjectionMultiplier = 3 ∧
    (ejectMass ctxZero envC9 1100 0 stateC9).celestialBodies = stateC9.celestialBodies ∧
    (ejectMass ctxZero envC9 1100 0 stateC9).lastClickTime = stateC9.lastClickTime := by
  norm_num [ejectMass, stateC9, baseState, testBody, playerC9, comboMultiplier, ctxZero, envC9,
    MIN_PLAYER_MASS, PLAYER_INITIAL_MASS, calculateMassFromRadius, piQ, DENSITY, PLAYER_RADIUS,
    QUICK_CLICK_THRESHOLD, EJECTION_GROWTH_RATE, MAX_EJECTION_MULTIPLIER,
    BASE_EJECTION_MASS_PERCENT, MAX_EJECTION_PERCENTAGE, min_def, max_def]

/-- C9 amended: when `ejectMass` aborts because the minimum-mass floor
leaves no positive ejectable amount, no body is spawned and the player's
mass, velocity and `lastClickTime` are unchanged — the entire state is
unchanged *except* `currentEjectionMultiplier`, which the combo logic has
already updated before the abort. -/
theorem claim_C9_abort_state (ctx : MathCtx) (env : Env) (now : ℤ) (rnd : ℕ)
    (s : SimState) (pIdx : ℕ) (player : Body)
    (hIdx : s.celestialBodies.findIdx? (·.isPlayer) = some pIdx)
    (hGet : s.celestialBodies[pIdx]? = some player)
    (hGuard : MIN_PLAYER_MASS < player.massRaw)
    (hFloor : player.massRaw -
        min (player.massRaw * BASE_EJECTION_MASS_PERCENT * comboMultiplier now s)
            (player.massRaw * MAX_EJECTION_PERCENTAGE) < MIN_PLAYER_MASS)
    (hAbort : player.massRaw - MIN_PLAYER_MASS ≤ 1/1000000000) :
    ejectMass ctx env now rnd s = { s with currentEjectionMultiplier := comboMultiplier now s } := by
  unfold ejectMass
  simp only [hIdx, hGet]
  rw [if_neg (not_le.mpr hGuard)]
  rw [if_pos ⟨hFloor, hAbort⟩]

/-- Witness for the amended C9 at the concrete `stateC9`. -/
theorem claim_C9_witness :
    stateC9.celestialBodies.findIdx? (·.isPlayer) = some 0 ∧
    stateC9.celestialBodies[0]? = some playerC9 ∧
    MIN_PLAYER_MASS < playerC9.massRaw ∧
    playerC9.massRaw -
        min (playerC9.massRaw * BASE_EJECTION_MASS_PERCENT * comboMultiplier 1100 stateC9)
            (playerC9.massRaw * MAX_EJECTION_PERCENTAGE) < MIN_PLAYER_MASS ∧
    playerC9.massRaw - MIN_PLAYER_MASS ≤ 1/1000000000 ∧
    ejectMass ctxZero envC9 1100 0 stateC9
      = { stateC9 with currentEjectionMultiplier := comboMultiplier 1100 stateC9 } := by
  have hIdx : stateC9.celestialBodies.findIdx? (·.isPlayer) = some 0 := by
    norm_num [stateC9, baseState, playerC9, testBody]
  have hGet : stateC9.celestialBodies[0]? = some playerC9 := by
    norm_num [stateC9, baseState]
  have hGuard : MIN_PLAYER_MASS < playerC9.massRaw := by
    norm_num [playerC9, testBody, MIN_PLAYER_MASS, PLAYER_INITIAL_MASS,
      calculateMassFromRadius, piQ, DENSITY, PLAYER_RADIUS]
  have hFloor : playerC9.massRaw -
      min (playerC9.massRaw * BASE_EJECTION_MASS_PERCENT * comboMultiplier 1100 stateC9)
          (playerC9.massRaw * MAX_EJECTION_PERCENTAGE) < MIN_PLAYER_MASS := by
    norm_num [playerC9, testBody, stateC9, baseState, comboMultiplier, MIN_PLAYER_MASS,
      PLAYER_INITIAL_MASS, calculateMassFromRadius, piQ, DENSITY, PLAYER_RADIUS,
      QUICK_CLICK_THRESHOLD, EJECTION_GROWTH_RATE, MAX_EJECTION_MULTIPLIER,
      BASE_EJECTION_MASS_PERCENT, MAX_EJECTION_PERCENTAGE, min_def]
  have hAbort : playerC9.massRaw - MIN_PLAYER_MASS ≤ 1/1000000000 := by
    norm_num [playerC9, testBody, MIN_PLAYER_MASS, PLAYER_INITIAL_MASS,
      calculateMassFromRadius, piQ, DENSITY, PLAYER_RADIUS]
  exact ⟨hIdx, hGet, hGuard, hFloor, hAbort,
    claim_C9_abort_state ctxZero envC9 1100 0 stateC9 0 playerC9 hIdx hGet hGuard hFloor hAbort⟩

/-! ## C8 — orbit solver round-trip on a circular configuration -/

set_option maxHeartbeats 2000000 in
/-- C8: for a synthetic circular two-body configuration — center at the
origin with zero velocity, body at distance `r` with purely tangential
speed `v = sqrt(mu/r)` where `mu = G * (center.mass + body.mass)` is the
solver's effective gravitational parameter for a non-sun, non-player
center — `calculateOrbitParameters` returns eccentricity exactly 0 (the
solver's `1e-9` floor zeroes the residual eccentricity) and a semi-major
axis within `2e-9` of `r`.  The hypotheses `hrt`/`hrt2` state that the
context's square root is exact on the one argument the solver feeds it,
and `hmularge` bounds the gravitational parameter away from the epsilon
terms. -/
theorem claim_C8_circular_orbit (ctx : MathCtx) (bodies : List Body) (gbf scgm : ℚ)
    (body center : Body) (r v rt : ℚ)
    (hcx : center.x = 0) (hcy : center.y = 0) (hcvx : center.vx = 0) (hcvy : center.vy = 0)
    (hcsun : center.isSun = false) (hcpl : center.isPlayer = false)
    (hbx : body.x = r) (hby : body.y = 0) (hbvx : body.vx = 0) (hbvy : body.vy = v)
    (hbm : 0 < body.massRaw) (hbsp : body.isSpark = false)
    (hr : 1 ≤ r)
    (hrt : ctx.sqrt (r * r + 1/1000000000) = rt)
    (hrt2 : rt * rt = r * r + 1/1000000000) (hrt0 : 0 < rt)
    (hmu : v * v = G * (center.massRaw + body.massRaw) / r)
    (hmularge : 1/100000000 * r ≤ G * (center.massRaw + body.massRaw)) :
    (calculateOrbitParameters ctx bodies gbf scgm body center false).e = 0 ∧
    ∃ aVal, (calculateOrbitParameters ctx bodies gbf scgm body center false).a = some aVal ∧
      r ≤ aVal ∧ aVal ≤ r + 2/1000000000 := by
  set A := G * (center.massRaw + body.massRaw) with hA
  have hr0 : 0 < r := by linarith
  have hA0 : 0 < A := by
    have : (0:ℚ) < 1/100000000 * r := by positivity
    linarith
  have hrgt : r < rt := by nlinarith
  have hrtr : rt - r ≤ 1/2000000000 := by nlinarith
  have h2r : rt < 2 * r := by nlinarith
  -- the energy is strictly below the -1e-9 threshold
  have hkey : 2 * (1/1000000000) * r * rt < A * (2*r - rt) := by nlinarith
  have hE : A / (2*r) - A / rt < -(1/1000000000) := by
    rw [div_sub_div _ _ (by positivity) hrt0.ne']
    rw [div_lt_iff (by positivity)]
    nlinarith [hkey]
  have hvhalf : v * v / 2 = A / (2 * r) := by
    rw [hmu]
    ring
  -- unfold the solver on this configuration
  simp only [calculateOrbitParameters]
  rw [if_neg (by simp [hbsp, not_le.mpr hbm])]
  simp only [hcx, hcy, hbx, hby, hcvx, hcvy, hbvx, hbvy, hcsun, hcpl, Bool.false_eq_true,
    false_and, if_false, if_neg]
  have harg : (r - 0) * (r - 0) + (0 - 0) * (0 - 0) + 1/1000000000 = r * r + 1/1000000000 := by
    ring
  rw [harg, hrt]
  have hvsq : ((0:ℚ) - 0) * (0 - 0) + (v - 0) * (v - 0) = v * v := by ring
  rw [hvsq]
  have hh : (r - 0) * (v - 0) - (0 - 0) * (0 - 0) = r * v := by ring
  rw [hh]
  rw [← hA]
  have hEexpr : v * v / 2 - A / rt < -(1/1000000000) := by
    rw [hvhalf]
    exact hE
  rw [if_neg (not_le.mpr hEexpr)]
  have hEneg : v * v / 2 - A / rt < 0 := by linarith
  have ha0 : 0 < -A / (2 * (v * v / 2 - A / rt)) :=
    div_pos_of_neg_of_neg (by linarith) (by linarith)
  rw [if_neg (not_le.mpr ha0)]
  have hA' : A ≠ 0 := hA0.ne'
  have heSq : 1 + 2 * (v * v / 2 - A / rt) * (r * v) * (r * v) / (A * A)
      = 2 * (rt - r) / rt := by
    rw [show 2 * (v * v / 2 - A / rt) * (r * v) * (r * v)
        = (v * v - 2 * (A / rt)) * (r * r) * (v * v) by ring]
    rw [hmu]
    field_simp
    ring
  rw [heSq]
  have hesmall : 2 * (rt - r) / rt ≤ 1/1000000000 := by
    rw [div_le_iff hrt0]
    nlinarith [mul_pos hrt0 (show 0 < rt + r by linarith)]
  rw [if_neg (not_lt.mpr hesmall)]
  have h2rrt : (2 * r - rt) ≠ 0 := ne_of_gt (by linarith)
  have haval : -A / (2 * (v * v / 2 - A / rt)) = r * rt / (2 * r - rt) := by
    rw [hvhalf]
    have hden : 2 * (A / (2 * r) - A / rt) = A * (rt - 2 * r) / (r * rt) := by
      field_simp
      ring
    rw [hden, div_div_eq_mul_div]
    rw [div_eq_div_iff (mul_ne_zero hA' (ne_of_lt (by linarith : rt - 2 * r < 0))) h2rrt]
    ring
  refine ⟨rfl, r * rt / (2 * r - rt), ?_, ?_, ?_⟩
  · rw [haval]
  · rw [le_div_iff (by linarith : (0:ℚ) < 2 * r - rt)]
    nlinarith
  · rw [div_le_iff (by linarith : (0:ℚ) < 2 * r - rt)]
    nlinarith [hrt2, mul_pos hr0 hrt0, sq_nonneg (rt - r), mul_nonneg (sub_nonneg.mpr hrtr) (sub_nonneg.mpr hr)]

theorem claim_C8_witness :
    (calculateOrbitParameters ctxC8 [] 0 0 bodyC8 centerC8 false).e = 0 ∧
    ∃ aVal, (calculateOrbitParameters ctxC8 [] 0 0 bodyC8 centerC8 false).a = some aVal ∧
      rC8 ≤ aVal ∧ aVal ≤ rC8 + 2/1000000000 :=
  claim_C8_circular_orbit ctxC8 [] 0 0 bodyC8 centerC8 rC8 1 rtC8
    rfl rfl rfl rfl rfl rfl rfl rfl rfl rfl
    (by norm_num [bodyC8, testBody])
    rfl
    (by norm_num [rC8])
    rfl
    (by norm_num [rC8, rtC8])
    (by norm_num [rtC8])
    (by norm_num [centerC8, bodyC8, testBody, rC8, G])
    (by norm_num [centerC8, bodyC8, testBody, rC8, G])


/-! ## Invariant preservation lemmas (C3 / C5) -/

lemma roles_explode {x y : Body} (h : rolesOf x = rolesOf y) :
    x.isPlayer = y.isPlayer ∧ x.isSun = y.isSun ∧ x.isSpark = y.isSpark ∧
      x.isGravitationalCenter = y.isGravitationalCenter := by
  simpa [rolesOf, Prod.ext_iff] using h

lemma bodyRolesOK_of_roles {x y : Body} (h : rolesOf x = rolesOf y) :
    bodyRolesOK x = bodyRolesOK y := by
  obtain ⟨h1, h2, h3, _⟩ := roles_explode h
  simp [bodyRolesOK, h1, h2, h3]

lemma countP_set_of_roles (p : Body → Bool) :
    ∀ (l : List Body) (i : ℕ) (b : Body), (∀ x, l[i]? = some x → p b = p x) →
      (l.set i b).countP p = l.countP p
  | [], _, _, _ => by simp
  | a :: l, 0, b, h => by
      simp [List.countP_cons, h a (by simp)]
  | a :: l, i + 1, b, h => by
      simp [List.countP_cons,
        countP_set_of_roles p l i b (fun x hx => h x (by simpa using hx))]

lemma countP_eraseIdx_of_not (p : Body → Bool) :
    ∀ (l : List Body) (i : ℕ) (x : Body), l[i]? = some x → p x = false →
      (l.eraseIdx i).countP p = l.countP p
  | [], _, _, h, _ => by simp at h
  | a :: l, 0, x, h, hp => by
      simp at h
      subst h
      simp [List.countP_cons, hp]
  | a :: l, i + 1, x, h, hp => by
      simp at h
      simp [List.countP_cons, countP_eraseIdx_of_not p l i x h hp]

lemma countP_eraseIdx_of_yes (p : Body → Bool) :
    ∀ (l : List Body) (i : ℕ) (x : Body), l[i]? = some x → p x = true →
      (l.eraseIdx i).countP p + 1 = l.countP p
  | [], _, _, h, _ => by simp at h
  | a :: l, 0, x, h, hp => by
      simp at h
      subst h
      simp [List.countP_cons, hp]
  | a :: l, i + 1, x, h, hp => by
      simp at h
      have := countP_eraseIdx_of_yes p l i x h hp
      simp [List.countP_cons]
      omega

lemma countP_mapWithIndex (p : Body → Bool) (f : ℕ → Body → Body) :
    ∀ (i : ℕ) (l : List Body), (∀ k b, b ∈ l → p (f k b) = p b) →
      (mapWithIndex f i l).countP p = l.countP p
  | _, [], _ => rfl
  | i, a :: l, h => by
      simp [mapWithIndex, List.countP_cons, h i a (by simp),
        countP_mapWithIndex p f (i + 1) l (fun k b hb => h k b (by simp [hb]))]

lemma mem_mapWithIndex {f : ℕ → Body → Body} :
    ∀ {i : ℕ} {l : List Body} {x : Body}, x ∈ mapWithIndex f i l →
      ∃ k b, b ∈ l ∧ x = f k b
  | _, [], x, h => by simp [mapWithIndex] at h
  | i, a :: l, x, h => by
      rcases (by simpa [mapWithIndex] using h : x = f i a ∨ x ∈ mapWithIndex f (i + 1) l) with
        h | h
      · exact ⟨i, a, by simp, h⟩
      · obtain ⟨k, b, hb, he⟩ := mem_mapWithIndex h
        exact ⟨k, b, by simp [hb], he⟩

lemma getElem?_mapWithIndex (f : ℕ → Body → Body) :
    ∀ (i : ℕ) (l : List Body) (k : ℕ),
      (mapWithIndex f i l)[k]? = (l[k]?).map (f (i + k))
  | _, [], k => by simp [mapWithIndex]
  | i, a :: l, 0 => by simp [mapWithIndex]
  | i, a :: l, k + 1 => by
      have := getElem?_mapWithIndex f (i + 1) l k
      simp only [mapWithIndex, List.getElem?_cons_succ, this]
      rw [show i + 1 + k = i + (k + 1) from by omega]

lemma countP_filter_of_imp (p q : Body → Bool) :
    ∀ l : List Body, (∀ b ∈ l, p b = true → q b = true) →
      (l.filter q).countP p = l.countP p
  | [], _ => rfl
  | a :: l, h => by
      have ih := countP_filter_of_imp p q l (fun b hb => h b (by simp [hb]))
      by_cases hq : q a = true
      · simp [List.filter_cons, hq, List.countP_cons, ih]
      · have hpa : p a = false := by
          cases hpa : p a
          · rfl
          · exact absurd (h a (by simp) hpa) hq
        simp [List.filter_cons, hq, List.countP_cons, hpa, ih]

lemma getElem?_eraseIdx_own :
    ∀ (l : List Body) (i k : ℕ),
      (l.eraseIdx i)[k]? = if k < i then l[k]? else l[k + 1]?
  | [], i, k => by simp [List.eraseIdx]
  | a :: l, 0, k => by simp [List.eraseIdx]
  | a :: l, i + 1, 0 => by simp [List.eraseIdx]
  | a :: l, i + 1, k + 1 => by
      simp only [List.eraseIdx, List.getElem?_cons_succ, getElem?_eraseIdx_own l i k]
      by_cases h : k < i <;> simp [h, Nat.succ_lt_succ_iff]

lemma InvL_transfer {won : Bool} {l l' : List Body}
    (h1 : l'.countP (·.isGravitationalCenter) = l.countP (·.isGravitationalCenter))
    (h2 : l'.countP (·.isSun) ≤ l.countP (·.isSun))
    (h3 : ∀ x ∈ l', ∃ b ∈ l, rolesOf x = rolesOf b) :
    InvL won l → InvL won l' := by
  rintro ⟨c1, c2, c3, c4, c5⟩
  refine ⟨h1 ▸ c1, le_trans h2 c2, ?_, ?_, ?_⟩
  · intro x hx
    obtain ⟨b, hb, hr⟩ := h3 x hx
    rw [bodyRolesOK_of_roles hr]
    exact c3 b hb
  · intro x hx hgc
    obtain ⟨b, hb, hr⟩ := h3 x hx
    obtain ⟨e1, e2, _, e4⟩ := roles_explode hr
    rw [e1, e2]
    exact c4 b hb (e4 ▸ hgc)
  · intro hw x hx
    obtain ⟨b, hb, hr⟩ := h3 x hx
    rw [(roles_explode hr).2.1]
    exact c5 hw b hb


lemma InvL_set {won : Bool} {l : List Body} {i : ℕ} {b x : Body}
    (hx : l[i]? = some x) (hr : rolesOf b = rolesOf x) :
    InvL won l → InvL won (l.set i b) := by
  refine InvL_transfer ?_ ?_ ?_
  · exact countP_set_of_roles _ l i b
      (fun y hy => by rw [hx] at hy; cases hy; exact (roles_explode hr).2.2.2)
  · exact le_of_eq (countP_set_of_roles _ l i b
      (fun y hy => by rw [hx] at hy; cases hy; exact (roles_explode hr).2.1))
  · intro y hy
    rcases List.mem_or_eq_of_mem_set hy with h | h
    · exact ⟨y, h, rfl⟩
    · exact ⟨x, List.getElem?_mem hx, h ▸ hr⟩

lemma InvL_eraseIdx {won : Bool} {l : List Body} {i : ℕ} {x : Body}
    (hx : l[i]? = some x) (hgc : x.isGravitationalCenter = false) :
    InvL won l → InvL won (l.eraseIdx i) := by
  refine InvL_transfer ?_ ?_ ?_
  · exact countP_eraseIdx_of_not _ l i x hx hgc
  · exact List.Sublist.countP_le _ (List.eraseIdx_sublist l i)
  · intro y hy
    exact ⟨y, List.mem_of_mem_eraseIdx hy, rfl⟩

lemma InvL_mapWithIndex {won : Bool} {f : ℕ → Body → Body} {i : ℕ} {l : List Body}
    (hf : ∀ k b, b ∈ l → rolesOf (f k b) = rolesOf b) :
    InvL won l → InvL won (mapWithIndex f i l) := by
  refine InvL_transfer ?_ ?_ ?_
  · exact countP_mapWithIndex _ f i l
      (fun k b hb => (roles_explode (hf k b hb)).2.2.2)
  · exact le_of_eq (countP_mapWithIndex _ f i l
      (fun k b hb => (roles_explode (hf k b hb)).2.1))
  · intro y hy
    obtain ⟨k, b, hb, rfl⟩ := mem_mapWithIndex hy
    exact ⟨b, hb, hf k b hb⟩

lemma InvL_map {won : Bool} {f : Body → Body} {l : List Body}
    (hf : ∀ b ∈ l, rolesOf (f b) = rolesOf b) :
    InvL won l → InvL won (l.map f) := by
  refine InvL_transfer ?_ ?_ ?_
  · rw [List.countP_map]
    exact List.countP_congr (fun b hb => by
      simp [(roles_explode (hf b hb)).2.2.2])
  · rw [List.countP_map]
    exact le_of_eq (List.countP_congr (fun b hb => by
      simp [(roles_explode (hf b hb)).2.1]))
  · intro y hy
    obtain ⟨b, hb, rfl⟩ := List.mem_map.mp hy
    exact ⟨b, hb, hf b hb⟩

lemma InvL_append_inert {won : Bool} {l ext : List Body}
    (hgc : ∀ b ∈ ext, b.isGravitationalCenter = false)
    (hsun : ∀ b ∈ ext, b.isSun = false)
    (hok : ∀ b ∈ ext, bodyRolesOK b = true) :
    InvL won l → InvL won (l ++ ext) := by
  rintro ⟨c1, c2, c3, c4, c5⟩
  refine ⟨?_, ?_, ?_, ?_, ?_⟩
  · have hz : ext.countP (·.isGravitationalCenter) = 0 :=
      List.countP_eq_zero.mpr (fun b hb => by simp [hgc b hb])
    rw [List.countP_append, c1, hz]
  · have hz : ext.countP (·.isSun) = 0 :=
      List.countP_eq_zero.mpr (fun b hb => by simp [hsun b hb])
    rw [List.countP_append, hz]
    simpa using c2
  · intro b hb
    rcases List.mem_append.mp hb with h | h
    · exact c3 b h
    · exact hok b h
  · intro b hb hgcb
    rcases List.mem_append.mp hb with h | h
    · exact c4 b h hgcb
    · exact absurd (hgc b h) (by simp [hgcb])
  · intro hw b hb
    rcases List.mem_append.mp hb with h | h
    · exact c5 hw b h
    · exact hsun b h

lemma InvL_cleanup {won : Bool} (now : ℤ) {l : List Body} (h : InvL won l) :
    InvL won (l.filter (cleanupKeep now)) := by
  have hkeep : ∀ b ∈ l, b.isGravitationalCenter = true → cleanupKeep now b = true := by
    intro b hb hgc
    have hok := h.2.2.1 b hb
    have hrole := h.2.2.2.1 b hb hgc
    have hnsp : b.isSpark = false := by
      cases hw : won
      · have hsun : b.isSun = true := hrole.2 hw
        simp [bodyRolesOK, hsun] at hok
        tauto
      · have hpl : b.isPlayer = true := hrole.1 hw
        simp [bodyRolesOK, hpl] at hok
        tauto
    simp [cleanupKeep, hnsp, hgc]
  refine InvL_transfer ?_ ?_ ?_ h
  · exact countP_filter_of_imp _ _ l hkeep
  · exact List.Sublist.countP_le _ (List.filter_sublist l)
  · intro y hy
    exact ⟨y, (List.mem_filter.mp hy).1, rfl⟩

lemma rolesOf_setMass (ctx : MathCtx) (scgm : ℚ) (b : Body) (m : ℚ) :
    rolesOf (b.setMass ctx scgm m) = rolesOf b := by
  simp [rolesOf]

lemma rolesOf_applyGravityFrom (ctx : MathCtx) (sx sy em gdt : ℚ) (b : Body) :
    rolesOf (applyGravityFrom ctx sx sy em gdt b) = rolesOf b := by
  simp only [applyGravityFrom]
  split <;> rfl

lemma rolesOf_integrateBody (ctx : MathCtx) (env : Env) (gdt cx cy cs : ℚ) (b : Body) :
    rolesOf (integrateBody ctx env gdt cx cy cs b) = rolesOf b := by
  simp only [integrateBody]
  repeat' split
  all_goals rfl

lemma rolesOf_orbitPhaseBody (ctx : MathCtx) (dt : ℚ) (s : SimState)
    (ecI : Option ℕ) (ec : Body) (pxI : Option ℕ) (pp : Option Body) (mds : ℚ)
    (idx : ℕ) (b : Body) :
    rolesOf (orbitPhaseBody ctx dt s ecI ec pxI pp mds idx b) = rolesOf b := by
  simp only [orbitPhaseBody]
  repeat' split
  all_goals rfl


lemma rolesOf_resolve_big (ctx : MathCtx) (scgm dt : ℚ) (big small : Body) :
    rolesOf (resolvePairCore ctx scgm dt big small).1 = rolesOf big := by
  simp only [resolvePairCore]
  rw [rolesOf_setMass]
  repeat' split
  all_goals rfl

lemma rolesOf_resolve_small (ctx : MathCtx) (scgm dt : ℚ) (big small : Body) :
    rolesOf (resolvePairCore ctx scgm dt big small).2.1 = rolesOf small := by
  simp only [resolvePairCore]
  exact rolesOf_setMass ctx scgm small _

lemma lt_length_of_getElem? {l : List Body} {i : ℕ} {x : Body}
    (h : l[i]? = some x) : i < l.length :=
  (List.getElem?_eq_some.mp h).1

lemma InvL_collideCore {won : Bool} (ctx : MathCtx) (scgm dt : ℚ) {l : List Body}
    {big small : Body} {bigI smallI : ℕ}
    (hbig : l[bigI]? = some big) (hsmall : l[smallI]? = some small)
    (hne : bigI ≠ smallI) (hgc : small.isGravitationalCenter = false)
    (h : InvL won l) :
    InvL won ((l.set bigI (resolvePairCore ctx scgm dt big small).1).set smallI
        (resolvePairCore ctx scgm dt big small).2.1) ∧
    InvL won ((((l.set bigI (resolvePairCore ctx scgm dt big small).1).set smallI
        (resolvePairCore ctx scgm dt big small).2.1).set smallI
        { (resolvePairCore ctx scgm dt big small).2.1 with trailOpacity := 0 }).eraseIdx
        smallI) := by
  have hrb := rolesOf_resolve_big ctx scgm dt big small
  have hrs := rolesOf_resolve_small ctx scgm dt big small
  have hlen : smallI < l.length := lt_length_of_getElem? hsmall
  have h1 : InvL won (l.set bigI (resolvePairCore ctx scgm dt big small).1) :=
    InvL_set hbig hrb h
  have hg2 : (l.set bigI (resolvePairCore ctx scgm dt big small).1)[smallI]? = some small := by
    rw [List.getElem?_set_ne hne, hsmall]
  have h2 : InvL won ((l.set bigI (resolvePairCore ctx scgm dt big small).1).set smallI
      (resolvePairCore ctx scgm dt big small).2.1) :=
    InvL_set hg2 hrs h1
  refine ⟨h2, ?_⟩
  have hlen2 : smallI < (l.set bigI (resolvePairCore ctx scgm dt big small).1).length := by
    simpa using hlen
  have hg3 : ((l.set bigI (resolvePairCore ctx scgm dt big small).1).set smallI
      (resolvePairCore ctx scgm dt big small).2.1)[smallI]? =
      some (resolvePairCore ctx scgm dt big small).2.1 :=
    List.getElem?_set_eq hlen2
  have hr3 : rolesOf { (resolvePairCore ctx scgm dt big small).2.1 with trailOpacity := 0 }
      = rolesOf (resolvePairCore ctx scgm dt big small).2.1 := rfl
  have h3 : InvL won (((l.set bigI (resolvePairCore ctx scgm dt big small).1).set smallI
      (resolvePairCore ctx scgm dt big small).2.1).set smallI
      { (resolvePairCore ctx scgm dt big small).2.1 with trailOpacity := 0 }) :=
    InvL_set hg3 (hr3.trans hrs) h2
  have hg4 : (((l.set bigI (resolvePairCore ctx scgm dt big small).1).set smallI
      (resolvePairCore ctx scgm dt big small).2.1).set smallI
      { (resolvePairCore ctx scgm dt big small).2.1 with trailOpacity := 0 })[smallI]? =
      some { (resolvePairCore ctx scgm dt big small).2.1 with trailOpacity := 0 } :=
    List.getElem?_set_eq (by simpa using hlen)
  exact InvL_eraseIdx hg4
    (by
      show (resolvePairCore ctx scgm dt big small).2.1.isGravitationalCenter = false
      rw [(roles_explode hrs).2.2.2]
      exact hgc) h3

lemma InvL_collidePair {won : Bool} (ctx : MathCtx) (scgm : ℚ) (now : ℤ) (dt : ℚ)
    {l : List Body} (det : Bool) {i j : ℕ} (hij : i ≠ j) (h : InvL won l) :
    InvL won (collidePair ctx scgm now dt l det i j).1 := by
  simp only [collidePair]
  split
  next b1 b2 hbi hbj =>
    split
    · exact h
    split
    · exact h
    rcases le_or_lt b2.massRaw b1.massRaw with hms | hms
    · simp only [if_pos hms]
      split
      next hg => exact h
      next hg =>
        have hgc : b2.isGravitationalCenter = false := by
          rcases Bool.eq_false_or_eq_true b2.isGravitationalCenter with hh | hh
          · exact absurd (Or.inl hh) hg
          · exact hh
        have core := InvL_collideCore ctx scgm dt hbi hbj hij hgc h
        split
        · exact core.1
        split
        · exact core.2
        · exact core.1
    · simp only [if_neg (not_le.mpr hms)]
      split
      next hg => exact h
      next hg =>
        have hgc : b1.isGravitationalCenter = false := by
          rcases Bool.eq_false_or_eq_true b1.isGravitationalCenter with hh | hh
          · exact absurd (Or.inl hh) hg
          · exact hh
        have core := InvL_collideCore ctx scgm dt hbj hbi (Ne.symm hij) hgc h
        split
        · exact core.1
        split
        · exact core.2
        · exact core.1
  next => exact h


lemma InvL_innerLoop (ctx : MathCtx) (scgm : ℚ) (now : ℤ) (dt : ℚ) {won : Bool}
    (i : ℕ) :
    ∀ (j : ℕ) (l : List Body) (det : Bool), j < i → InvL won l →
      InvL won (innerLoop ctx scgm now dt i j l det).1 := by
  intro j
  induction j using Nat.strong_induction_on with
  | _ j ih =>
    intro l det hji h
    have hp := InvL_collidePair ctx scgm now dt det (Ne.symm (Nat.ne_of_lt hji)) h
    rw [innerLoop]
    split
    next bs d k heq =>
      rw [heq] at hp
      exact hp
    next bs d heq =>
      rw [heq] at hp
      exact hp
    next bs d heq =>
      rw [heq] at hp
      cases j with
      | zero => exact hp
      | succ jp => exact ih jp (by omega) bs d (by omega) hp

lemma InvL_outerLoop (ctx : MathCtx) (scgm : ℚ) (now : ℤ) (dt : ℚ) {won : Bool} :
    ∀ (fuel : ℕ) (l : List Body) (det pnr : Bool) (i : ℤ), InvL won l →
      InvL won (outerLoop ctx scgm now dt fuel l det pnr i).1 := by
  intro fuel
  induction fuel with
  | zero =>
    intro l det pnr i h
    simpa [outerLoop] using h
  | succ fuel ih =>
    intro l det pnr i h
    rw [outerLoop]
    split
    · exact h
    · by_cases hiN : i.toNat = 0
      · simp only [if_pos hiN]
        split
        · exact h
        · exact ih l det pnr (i - 1) h
      · simp only [if_neg hiN]
        have hin : InvL won (innerLoop ctx scgm now dt i.toNat (i.toNat - 1) l det).1 :=
          InvL_innerLoop ctx scgm now dt i.toNat (i.toNat - 1) l det (by omega) h
        split
        next bs d heq =>
          rw [heq] at hin
          exact hin
        next bs d heq =>
          rw [heq] at hin
          split
          · exact hin
          · exact ih bs d pnr (i - 1) hin
        next bs d k heq =>
          rw [heq] at hin
          split
          · exact hin
          · exact ih bs d pnr ((k : ℤ) - 1) hin

lemma Inv_checkCollisions (ctx : MathCtx) (now : ℤ) (dt : ℚ) (s : SimState)
    (h : Inv s) : Inv (checkCollisions ctx now dt s) := by
  obtain ⟨hL, hgbf⟩ := h
  exact ⟨InvL_outerLoop ctx s.sunCurrentGameMass now dt _ _ _ _ _ hL, fun hw => hgbf hw⟩


lemma clearGC_countP (t : ℕ) :
    ∀ (i : ℕ) (l : List Body),
      (mapWithIndex (fun k b => if k = t then b else { b with isGravitationalCenter := false })
          i l).countP (·.isGravitationalCenter)
      = if i ≤ t then
          (match l[t - i]? with
           | some b => if b.isGravitationalCenter then 1 else 0
           | none => 0)
        else 0
  | i, [] => by
      simp [mapWithIndex]
  | i, a :: l => by
      have ih := clearGC_countP t (i + 1) l
      simp only [mapWithIndex, List.countP_cons, ih]
      by_cases hit : i = t
      · subst hit
        simp only [if_pos rfl, if_pos le_rfl, Nat.sub_self, List.getElem?_cons_zero]
        have : ¬ i + 1 ≤ i := by omega
        simp [this]
      · rw [if_neg hit]
        by_cases hle : i ≤ t
        · have hlt : i < t := lt_of_le_of_ne hle hit
          have h1 : i + 1 ≤ t := hlt
          have h2 : t - i = (t - (i + 1)) + 1 := by omega
          simp [h1, hle, h2]
        · have h1 : ¬ i + 1 ≤ t := by omega
          simp [h1, hle]

lemma InvL_winTransition {l : List Body} {pIdx sIdx : ℕ} {player sun player2 sun1 : Body}
    (hplayer : l[pIdx]? = some player) (hsun : l[sIdx]? = some sun)
    (hpP : player.isPlayer = true) (hsS : sun.isSun = true)
    (hne : pIdx ≠ sIdx)
    (hr2 : rolesOf player2 = rolesOf player) (hr1 : rolesOf sun1 = rolesOf sun)
    (hL : InvL false l)
    (player4 : Body)
    (hp4 : player4.isPlayer = player.isPlayer ∧ player4.isSun = player.isSun ∧
      player4.isSpark = player.isSpark ∧ player4.isGravitationalCenter = true) :
    InvL true (mapWithIndex
      (fun k b => if k = (if sIdx < pIdx then pIdx - 1 else pIdx) then b
                  else { b with isGravitationalCenter := false })
      0 ((((l.set pIdx player2).set sIdx sun1).set pIdx player4).eraseIdx sIdx)) := by
  have hplen : pIdx < l.length := lt_length_of_getElem? hplayer
  have hslen : sIdx < l.length := lt_length_of_getElem? hsun
  set pT := if sIdx < pIdx then pIdx - 1 else pIdx with hpT
  set bodies1 := ((l.set pIdx player2).set sIdx sun1).set pIdx player4 with hb1
  set bodies2 := bodies1.eraseIdx sIdx with hb2
  have hb1len : bodies1.length = l.length := by simp [hb1]
  have hb1p : bodies1[pIdx]? = some player4 := by
    rw [hb1]
    exact List.getElem?_set_eq (by simpa using hplen)
  have hb1s : bodies1[sIdx]? = some sun1 := by
    rw [hb1, List.getElem?_set_ne hne, List.getElem?_set_eq (by simpa using hslen)]
  have hb2p : bodies2[pT]? = some player4 := by
    rw [hb2, getElem?_eraseIdx_own]
    by_cases hsp : sIdx < pIdx
    · rw [hpT, if_pos hsp, if_neg (by omega)]
      rw [show pIdx - 1 + 1 = pIdx from by omega]
      exact hb1p
    · have hps : pIdx < sIdx := by omega
      rw [hpT, if_neg hsp, if_pos hps]
      exact hb1p
  -- member description of the final list through positions
  have hmem3 : ∀ x, x ∈ (mapWithIndex
      (fun k b => if k = pT then b else { b with isGravitationalCenter := false })
      0 bodies2) → ∃ k c, bodies2[k]? = some c ∧
        x = (if k = pT then c else { c with isGravitationalCenter := false }) := by
    intro x hx
    obtain ⟨k, hk⟩ := List.getElem?_of_mem hx
    rw [getElem?_mapWithIndex] at hk
    obtain ⟨c, hc, he⟩ := Option.map_eq_some'.mp hk
    exact ⟨0 + k, c, by simpa using hc, he.symm⟩
  -- the sun count of the pre-erase list is exactly one
  have hsun_l : l.countP (·.isSun) = 1 := by
    have h1 : 0 < l.countP (·.isSun) :=
      List.countP_pos.mpr ⟨sun, List.getElem?_mem hsun, by simpa using hsS⟩
    have h2 := hL.2.1
    omega
  have hLAs_p : ((l.set pIdx player2).set sIdx sun1)[pIdx]? = some player2 := by
    rw [List.getElem?_set_ne (Ne.symm hne)]
    exact List.getElem?_set_eq hplen
  have hsun_b1 : bodies1.countP (·.isSun) = 1 := by
    rw [hb1]
    rw [countP_set_of_roles _ _ _ _ (fun y hy => by
      rw [hLAs_p] at hy
      cases hy
      show player4.isSun = player2.isSun
      rw [hp4.2.1, (roles_explode hr2).2.1])]
    rw [countP_set_of_roles _ _ _ _ (fun y hy => by
      rw [List.getElem?_set_ne hne, hsun] at hy
      cases hy
      exact (roles_explode hr1).2.1)]
    rw [countP_set_of_roles _ _ _ _ (fun y hy => by
      rw [hplayer] at hy
      cases hy
      exact (roles_explode hr2).2.1)]
    exact hsun_l
  have hsun1S : sun1.isSun = true := (roles_explode hr1).2.1.trans hsS
  have hsun_b2 : bodies2.countP (·.isSun) = 0 := by
    have h := countP_eraseIdx_of_yes (·.isSun) bodies1 sIdx sun1 hb1s (by simpa using hsun1S)
    rw [← hb2] at h
    omega
  have hnosun2 : ∀ b ∈ bodies2, b.isSun = false := by
    intro b hb
    have := List.countP_eq_zero.mp hsun_b2 b hb
    simpa using this
  refine ⟨?_, ?_, ?_, ?_, ?_⟩
  · rw [clearGC_countP, if_pos (Nat.zero_le pT)]
    simp [hb2p, hp4.2.2.2]
  · have hf : ∀ k b, b ∈ bodies2 →
        ((if k = pT then b else { b with isGravitationalCenter := false }) : Body).isSun
          = b.isSun := by
      intro k b _
      split <;> rfl
    rw [countP_mapWithIndex _ _ 0 bodies2 (fun k b hb => hf k b hb), hsun_b2]
    omega
  · intro x hx
    obtain ⟨k, c, hck, he⟩ := hmem3 x hx
    have hc2 : c ∈ bodies2 := List.getElem?_mem hck
    have hokc : bodyRolesOK c = true := by
      rw [hb2] at hc2
      have hc1 : c ∈ bodies1 := List.mem_of_mem_eraseIdx hc2
      rw [hb1] at hc1
      rcases List.mem_or_eq_of_mem_set hc1 with hcA | hc4
      · rcases List.mem_or_eq_of_mem_set hcA with hcB | hcs1
        · rcases List.mem_or_eq_of_mem_set hcB with hcl | hcp2
          · exact hL.2.2.1 c hcl
          · rw [hcp2, bodyRolesOK_of_roles hr2]
            exact hL.2.2.1 player (List.getElem?_mem hplayer)
        · rw [hcs1, bodyRolesOK_of_roles hr1]
          exact hL.2.2.1 sun (List.getElem?_mem hsun)
      · have h4 : bodyRolesOK player4 = bodyRolesOK player := by
          simp [bodyRolesOK, hp4.1, hp4.2.1, hp4.2.2.1]
        rw [hc4, h4]
        exact hL.2.2.1 player (List.getElem?_mem hplayer)
    have hxc : bodyRolesOK x = bodyRolesOK c := by
      rw [he]
      split <;> simp [bodyRolesOK]
    rw [hxc]
    exact hokc
  · intro x hx hgc
    refine ⟨fun _ => ?_, fun hcontra => by cases hcontra⟩
    obtain ⟨k, c, hck, he⟩ := hmem3 x hx
    by_cases hk : k = pT
    · rw [hk, hb2p] at hck
      have hcp := Option.some.inj hck
      rw [he, if_pos hk, ← hcp, hp4.1]
      exact hpP
    · have hxgc : x.isGravitationalCenter = false := by rw [he, if_neg hk]
      rw [hxgc] at hgc
      cases hgc
  · intro _ x hx
    obtain ⟨k, c, hck, he⟩ := hmem3 x hx
    have hcs : c.isSun = false := hnosun2 c (List.getElem?_mem hck)
    rw [he]
    split
    · exact hcs
    · exact hcs


lemma Inv_checkSunAbsorption (ctx : MathCtx) (dt : ℚ) (s : SimState)
    (h : Inv s) : Inv (checkSunAbsorption ctx dt s).1 := by
  obtain ⟨hL, hgbf⟩ := h
  simp only [checkSunAbsorption]
  split
  · exact ⟨hL, hgbf⟩
  next hw =>
    have hwf : s.gameWon = false := by simpa using hw
    have hLf : InvL false s.celestialBodies := hwf ▸ hL
    split
    next pIdx sIdx hpIdx hsIdx =>
      split
      next player sun hplayer hsun =>
        obtain ⟨pl0, hpl0, hplP⟩ := findIdx?_getElem? hpIdx
        obtain ⟨su0, hsu0, hsuS⟩ := findIdx?_getElem? hsIdx
        have hpP : player.isPlayer = true := by
          rw [hplayer] at hpl0
          cases Option.some.inj hpl0
          exact hplP
        have hsS : sun.isSun = true := by
          rw [hsun] at hsu0
          cases Option.some.inj hsu0
          exact hsuS
        have hmemP : player ∈ s.celestialBodies := List.getElem?_mem hplayer
        have hok := hL.2.2.1 player hmemP
        have hpsne : pIdx ≠ sIdx := by
          intro he
          have h2 : s.celestialBodies[sIdx]? = some player := he ▸ hplayer
          rw [hsun] at h2
          have hse := Option.some.inj h2
          have hPS : player.isSun = true := by rw [← hse]; exact hsS
          simp [bodyRolesOK, hpP, hPS] at hok
        have hnogbf : ∀ q : ℚ, ∀ s2 : SimState, s2.gameWon = s.gameWon →
            (s2.gameWon = true → q = 1) := by
          intro q s2 he hw2
          rw [he, hwf] at hw2
          cases hw2
        split
        · -- not eligible: decay branch (with inner proximity-reset if)
          split
          · exact ⟨hL, fun hw2 => absurd hw2 (by simp [hwf])⟩
          · exact ⟨hL, fun hw2 => absurd hw2 (by simp [hwf])⟩
        split
        · -- out of range: decay branch
          exact ⟨hL, fun hw2 => absurd hw2 (by simp [hwf])⟩
        split
        · -- zero transfer
          exact ⟨hL, hgbf⟩
        split
        · -- win transition
          refine ⟨?_, fun _ => rfl⟩
          refine InvL_winTransition hplayer hsun hpP hsS hpsne ?_ ?_ hLf _ ?_
          · rw [rolesOf_setMass]
            split <;> rfl
          · exact rolesOf_setMass _ _ _ _
          · refine ⟨?_, ?_, ?_, rfl⟩ <;>
              simp only [setMass_isPlayer, setMass_isSun, setMass_isSpark] <;>
              split <;> rfl
        · -- ordinary absorption step
          refine ⟨?_, fun hw2 => absurd hw2 (by simp [hwf])⟩
          apply @InvL_set _ _ _ _ sun _ _ (@InvL_set _ _ _ _ player hplayer _ hL)
          · rw [List.getElem?_set_ne hpsne]
            exact hsun
          · exact rolesOf_setMass _ _ _ _
          · rw [rolesOf_setMass]
            split <;> rfl
      next => exact ⟨hL, hgbf⟩
    next => exact ⟨hL, hgbf⟩


lemma Inv_sunGravityPhase (ctx : MathCtx) (gameDt : ℚ) (sunIdx? : Option ℕ)
    (s : SimState) (h : Inv s) : Inv (sunGravityPhase ctx gameDt sunIdx? s) := by
  obtain ⟨hL, hgbf⟩ := h
  simp only [sunGravityPhase]
  split
  · split
    · split
      · refine ⟨InvL_mapWithIndex (fun k b _ => ?_) hL, hgbf⟩
        split
        · rfl
        · apply rolesOf_applyGravityFrom
      · exact ⟨hL, hgbf⟩
    · exact ⟨hL, hgbf⟩
  · exact ⟨hL, hgbf⟩

lemma Inv_playerGravityPhase (ctx : MathCtx) (gameDt : ℚ) (playerIdx? : Option ℕ)
    (s : SimState) (h : Inv s) : Inv (playerGravityPhase ctx gameDt playerIdx? s) := by
  obtain ⟨hL, hgbf⟩ := h
  simp only [playerGravityPhase]
  split
  · split
    · split
      · split
        · refine ⟨InvL_mapWithIndex (fun k b _ => ?_) hL, hgbf⟩
          split
          · rfl
          · apply rolesOf_applyGravityFrom
        · exact ⟨hL, hgbf⟩
      · exact ⟨hL, hgbf⟩
    · exact ⟨hL, hgbf⟩
  · exact ⟨hL, hgbf⟩

lemma Inv_postWinGravityPhase (ctx : MathCtx) (gameDt : ℚ) (sunIdx? playerIdx? : Option ℕ)
    (s : SimState) (h : Inv s) : Inv (postWinGravityPhase ctx gameDt sunIdx? playerIdx? s) := by
  obtain ⟨hL, hgbf⟩ := h
  simp only [postWinGravityPhase]
  split
  · split
    · split
      · refine ⟨InvL_mapWithIndex (fun k b _ => ?_) hL, hgbf⟩
        split
        · rfl
        · apply rolesOf_applyGravityFrom
      · exact ⟨hL, hgbf⟩
    · exact ⟨hL, hgbf⟩
  · exact ⟨hL, hgbf⟩

lemma Inv_integrate (ctx : MathCtx) (env : Env) (gameDt cx cy cs : ℚ) {s : SimState}
    (h : Inv s) :
    Inv { s with celestialBodies :=
        s.celestialBodies.map (integrateBody ctx env gameDt cx cy cs) } :=
  ⟨InvL_map (fun b _ => rolesOf_integrateBody ctx env gameDt cx cy cs b) h.1, h.2⟩

lemma Inv_tickBeforeCollisions (ctx : MathCtx) (env : Env) (now : ℤ) (gameDt : ℚ)
    (s : SimState) (h : Inv s) : Inv (tickBeforeCollisions ctx env now gameDt s) := by
  obtain ⟨hL, hgbf⟩ := h
  simp only [tickBeforeCollisions]
  apply Inv_integrate
  have hbase : Inv (postWinGravityPhase ctx gameDt
      ((s.celestialBodies.filter (cleanupKeep now)).findIdx? (·.isSun))
      ((s.celestialBodies.filter (cleanupKeep now)).findIdx? (·.isPlayer))
      (playerGravityPhase ctx gameDt
        ((s.celestialBodies.filter (cleanupKeep now)).findIdx? (·.isPlayer))
        (sunGravityPhase ctx gameDt
          ((s.celestialBodies.filter (cleanupKeep now)).findIdx? (·.isSun))
          { s with collisionDetectedThisFrame := false
                   celestialBodies := s.celestialBodies.filter (cleanupKeep now) }))) := by
    apply Inv_postWinGravityPhase
    apply Inv_playerGravityPhase
    apply Inv_sunGravityPhase
    exact ⟨InvL_cleanup now hL, hgbf⟩
  split
  · exact ⟨hbase.1, hbase.2⟩
  · exact hbase


lemma spawnOne_isGC (ctx : MathCtx) (scgm : ℚ) (center : Body) (now : ℤ) (r : ℕ) :
    (spawnOne ctx scgm center now r).isGravitationalCenter = false := by
  simp [spawnOne]

lemma spawnOne_isSun (ctx : MathCtx) (scgm : ℚ) (center : Body) (now : ℤ) (r : ℕ) :
    (spawnOne ctx scgm center now r).isSun = false := by
  simp [spawnOne]

lemma spawnOne_rolesOK (ctx : MathCtx) (scgm : ℚ) (center : Body) (now : ℤ) (r : ℕ) :
    bodyRolesOK (spawnOne ctx scgm center now r) = true := by
  simp [spawnOne, bodyRolesOK, mkBody]

lemma Inv_populateSystem (ctx : MathCtx) (n : ℕ) (now : ℤ) (rnd : ℕ)
    (s : SimState) (h : Inv s) : Inv (populateSystem ctx n now rnd s) := by
  obtain ⟨hL, hgbf⟩ := h
  simp only [populateSystem]
  split
  · exact ⟨hL, hgbf⟩
  · refine ⟨InvL_append_inert ?_ ?_ ?_ hL, hgbf⟩ <;>
      · intro b hb
        obtain ⟨i, hi, rfl⟩ := List.mem_map.mp hb
        first
          | exact spawnOne_isGC _ _ _ _ _
          | exact spawnOne_isSun _ _ _ _ _
          | exact spawnOne_rolesOK _ _ _ _ _


lemma Inv_resetPlayer (ctx : MathCtx) (env : Env) (now : ℤ) (rnd : ℕ)
    (s : SimState) (h : Inv s) : Inv (resetPlayer ctx env now rnd s) := by
  obtain ⟨hL, hgbf⟩ := h
  have key : ∀ (s1 : SimState) (q1 q2 : ℚ), Inv s1 →
      Inv { populateSystem ctx INIT_NUM_BODIES now rnd s1 with
            orbitHistory := ([] : List OrbitHistEntry)
            currentEjectionMultiplier := 1
            lastClickTime := 0
            lastEjectionDecayTime := 0
            currentWarningIntensity := 0
            cameraX := q1
            cameraY := q2
            cameraScale := 1
            playerNeedsReset := false } := by
    intro s1 q1 q2 h1
    have hp := Inv_populateSystem ctx INIT_NUM_BODIES now rnd s1 h1
    exact ⟨hp.1, hp.2⟩
  simp only [resetPlayer]
  split
  · apply key
    refine ⟨⟨?_, ?_, ?_, ?_, fun hw => by cases hw⟩, fun hw => by cases hw⟩
    · simp [List.countP_cons]
    · simp [List.countP_cons]
    · intro b hb
      simp at hb
      rcases hb with rfl | rfl <;> simp [bodyRolesOK]
    · intro b hb hgc
      simp at hb
      rcases hb with rfl | rfl
      · constructor
        · intro hw
          cases hw
        · intro _
          simp
      · simp at hgc
  next sun hfind =>
    have hsmem : sun ∈ s.celestialBodies := List.mem_of_find?_eq_some hfind
    have hsS : sun.isSun = true := by simpa using List.find?_some hfind
    have hok := hL.2.2.1 sun hsmem
    have hsp : sun.isPlayer = false := by
      rcases Bool.eq_false_or_eq_true sun.isPlayer with hh | hh
      · simp [bodyRolesOK, hsS, hh] at hok
      · exact hh
    have hspk : sun.isSpark = false := by
      rcases Bool.eq_false_or_eq_true sun.isSpark with hh | hh
      · simp [bodyRolesOK, hsS, hh] at hok
      · exact hh
    apply key
    refine ⟨⟨?_, ?_, ?_, ?_, fun hw => by cases hw⟩, fun hw => by cases hw⟩
    · simp [List.countP_cons]
    · simp [List.countP_cons, hsS]
    · intro b hb
      simp at hb
      rcases hb with rfl | rfl <;> simp [bodyRolesOK, hsS, hsp, hspk]
    · intro b hb hgc
      simp at hb
      rcases hb with rfl | rfl
      · constructor
        · intro hw
          cases hw
        · intro _
          simp [hsS]
      · simp at hgc


lemma mem_ite_singleton {c : Prop} [Decidable c] {bd x : Body}
    (hx : x ∈ (if c then [bd] else [])) : x = bd := by
  by_cases hc : c
  · rw [if_pos hc] at hx
    simpa using hx
  · rw [if_neg hc] at hx
    simp at hx

lemma mem_ite_map_range {c : Prop} [Decidable c] {n : ℕ} {f : ℕ → Body} {x : Body}
    (hx : x ∈ (if c then (List.range n).map f else [])) : ∃ k, x = f k := by
  by_cases hc : c
  · rw [if_pos hc] at hx
    obtain ⟨k, _, rfl⟩ := List.mem_map.mp hx
    exact ⟨k, rfl⟩
  · rw [if_neg hc] at hx
    simp at hx

lemma Inv_ejectMass (ctx : MathCtx) (env : Env) (now : ℤ) (rnd : ℕ)
    (s : SimState) (h : Inv s) : Inv (ejectMass ctx env now rnd s) := by
  obtain ⟨hL, hgbf⟩ := h
  simp only [ejectMass]
  split
  · exact ⟨hL, hgbf⟩
  next pIdx hpIdx =>
    split
    · exact ⟨hL, hgbf⟩
    next player hplayer =>
      split
      · exact ⟨hL, hgbf⟩
      split
      · exact ⟨hL, hgbf⟩
      refine ⟨?_, hgbf⟩
      refine InvL_append_inert ?_ ?_ ?_ (InvL_append_inert ?_ ?_ ?_ (InvL_set hplayer ?_ hL))
      · intro b hb
        obtain ⟨k, rfl⟩ := mem_ite_map_range hb
        simp
      · intro b hb
        obtain ⟨k, rfl⟩ := mem_ite_map_range hb
        simp
      · intro b hb
        obtain ⟨k, rfl⟩ := mem_ite_map_range hb
        simp [bodyRolesOK]
      · intro b hb
        obtain rfl := mem_ite_singleton hb
        simp
      · intro b hb
        obtain rfl := mem_ite_singleton hb
        simp
      · intro b hb
        obtain rfl := mem_ite_singleton hb
        simp [bodyRolesOK]
      · repeat' split
        all_goals rfl

lemma Inv_decayEjection (now : ℤ) {s : SimState} (h : Inv s) :
    Inv (decayEjectionMultiplier now s) := by
  simp only [decayEjectionMultiplier]
  split
  · exact ⟨h.1, h.2⟩
  · exact h

lemma Inv_updateOrbitHistory (ctx : MathCtx) {s : SimState} (h : Inv s) :
    Inv (updateOrbitHistory ctx s) := by
  simp only [updateOrbitHistory]
  repeat' split
  all_goals exact ⟨h.1, h.2⟩

lemma Inv_warnSet (q : ℚ) {s : SimState} (h : Inv s) :
    Inv { s with currentWarningIntensity := q } :=
  ⟨h.1, h.2⟩

lemma Inv_cameraSet (x y : ℚ) {s : SimState} (h : Inv s) :
    Inv { s with cameraX := x, cameraY := y } :=
  ⟨h.1, h.2⟩

lemma Inv_orbitPhaseMap (ctx : MathCtx) (dt : ℚ) (s0 : SimState)
    (ecI : Option ℕ) (ec : Body) (pxI : Option ℕ) (pp : Option Body) (mds : ℚ)
    {s : SimState} (h : Inv s) :
    Inv { s with celestialBodies := (mapWithIndex
        (orbitPhaseBody ctx dt s0 ecI ec pxI pp mds) 0 s.celestialBodies) } :=
  ⟨InvL_mapWithIndex (fun k b _ => rolesOf_orbitPhaseBody ctx dt s0 ecI ec pxI pp mds k b) h.1,
    h.2⟩

lemma Inv_tickAfterCollisions (ctx : MathCtx) (env : Env) (now : ℤ) (rnd : ℕ)
    (dt : ℚ) (sunIdx? playerIdx? : Option ℕ) (s5 : SimState) (h : Inv s5) :
    Inv (tickAfterCollisions ctx env now rnd dt sunIdx? playerIdx? s5) := by
  simp only [tickAfterCollisions]
  split
  · exact Inv_resetPlayer ctx env now rnd s5 h
  · have h6 : Inv (checkSunAbsorption ctx dt s5).1 := Inv_checkSunAbsorption ctx dt s5 h
    apply Inv_decayEjection
    apply Inv_updateOrbitHistory
    apply Inv_warnSet
    split
    · split
      · apply Inv_cameraSet
        split
        · exact h6
        · apply Inv_orbitPhaseMap
          exact h6
      · split
        · exact h6
        · apply Inv_orbitPhaseMap
          exact h6
    · split
      · exact h6
      · apply Inv_orbitPhaseMap
        exact h6

lemma Inv_updatePhysics (ctx : MathCtx) (env : Env) (now : ℤ) (rnd : ℕ)
    (dt : ℚ) (s : SimState) (h : Inv s) :
    Inv (updatePhysics ctx env now rnd dt s) := by
  simp only [updatePhysics]
  exact Inv_tickAfterCollisions ctx env now rnd dt _ _ _
    (Inv_checkCollisions ctx now dt _ (Inv_tickBeforeCollisions ctx env now _ s h))

lemma Inv_stateC3w : Inv stateC3w := by
  unfold Inv InvL
  decide


/-- C3: in every invariant-satisfying state with `gameWon = true`, the
registry holds no sun, `gravityBlendFactor = 1` and exactly one body — a
player — is the gravitational center; this is established by the win
transition of `checkSunAbsorption` and preserved by every `updatePhysics`
tick (the invariant `Inv` is preserved, and `Inv` entails the terminal
properties whenever `gameWon` holds). -/
theorem claim_C3_win_terminal :
    (∀ s : SimState, Inv s → s.gameWon = true → WinProps s) ∧
    (∀ (ctx : MathCtx) (dt : ℚ) (s : SimState), Inv s →
      (checkSunAbsorption ctx dt s).1.gameWon = true →
      WinProps (checkSunAbsorption ctx dt s).1) ∧
    (∀ (ctx : MathCtx) (env : Env) (now : ℤ) (rnd : ℕ) (dt : ℚ) (s : SimState),
      Inv s → Inv (updatePhysics ctx env now rnd dt s)) := by
  have hWP : ∀ s : SimState, Inv s → s.gameWon = true → WinProps s := by
    intro s hs hw
    obtain ⟨⟨c1, c2, c3, c4, c5⟩, hgbf⟩ := hs
    refine ⟨c5 hw, hgbf hw, c1, ?_⟩
    intro b hb hgc
    exact (c4 b hb hgc).1 hw
  refine ⟨hWP, ?_, Inv_updatePhysics⟩
  intro ctx dt s hs hw
  exact hWP _ (Inv_checkSunAbsorption ctx dt s hs) hw

/-- Witness for C3 at a concrete pre-win two-body state. -/
theorem claim_C3_witness :
    Inv stateC3w ∧ Inv (updatePhysics ctxZero envC9 1000 0 (1/10) stateC3w) :=
  ⟨Inv_stateC3w,
    claim_C3_win_terminal.2.2 ctxZero envC9 1000 0 (1/10) stateC3w Inv_stateC3w⟩

/-- C5: exactly one body has `isGravitationalCenter = true` in every
invariant-satisfying state — the sun before the win transition and the
player after it; the body constructor only marks suns as centers, and the
win transition (`checkSunAbsorption`), `resetPlayer` and `ejectMass` all
preserve the invariant. -/
theorem claim_C5_unique_center :
    (∀ (ctx : MathCtx) (scgm x y vx vy mass : ℚ) (pl su sp : Bool) (now : ℤ),
      (mkBody ctx scgm x y vx vy mass pl su sp now).isGravitationalCenter = su) ∧
    (∀ s : SimState, Inv s →
      s.celestialBodies.countP (·.isGravitationalCenter) = 1 ∧
      (∀ b ∈ s.celestialBodies, b.isGravitationalCenter = true →
        (s.gameWon = false → b.isSun = true) ∧ (s.gameWon = true → b.isPlayer = true))) ∧
    (∀ (ctx : MathCtx) (dt : ℚ) (s : SimState), Inv s → Inv (checkSunAbsorption ctx dt s).1) ∧
    (∀ (ctx : MathCtx) (env : Env) (now : ℤ) (rnd : ℕ) (s : SimState),
      Inv s → Inv (resetPlayer ctx env now rnd s)) ∧
    (∀ (ctx : MathCtx) (env : Env) (now : ℤ) (rnd : ℕ) (s : SimState),
      Inv s → Inv (ejectMass ctx env now rnd s)) := by
  refine ⟨?_, ?_, Inv_checkSunAbsorption, Inv_resetPlayer, Inv_ejectMass⟩
  · intro ctx scgm x y vx vy mass pl su sp now
    rfl
  · intro s hs
    obtain ⟨⟨c1, c2, c3, c4, c5⟩, hgbf⟩ := hs
    exact ⟨c1, fun b hb hgc => ⟨(c4 b hb hgc).2, (c4 b hb hgc).1⟩⟩

/-- Witness for C5: `resetPlayer` at a concrete pre-win state. -/
theorem claim_C5_witness :
    Inv stateC3w ∧ Inv (resetPlayer ctxZero envC9 0 0 stateC3w) :=
  ⟨Inv_stateC3w,
    claim_C5_unique_center.2.2.2.1 ctxZero envC9 0 0 stateC3w Inv_stateC3w⟩

end Orbital
